import Mathlib

/-!
Verification development for the client-side scripts of a static
course-catalog website (`index.js`, `listing.js`, `domain.js`, `track.js`,
`home.js`, `theme.js`).  The scripts are embedded shallowly: course records
become a structure, the mutable page globals become explicit state records,
and each DOM-facing operation becomes a pure function from state to state
(or to a render result).  JavaScript numbers are modelled as rationals and
JavaScript string primitives (`toLowerCase`, `trim`, `includes`,
`localeCompare`, default `sort` order) are modelled by structurally
recursive functions on the character data so that they evaluate on closed
inputs.
-/

namespace Catalog

/-- A course record, with the fields the scripts read: `title`, `track`,
`domains`, `tools`, `level` and the numeric `rating`, `students` and
`weeks` (JavaScript numbers modelled as rationals). -/
structure Course where
  title : String
  track : String
  domains : List String
  tools : List String
  level : String
  rating : ℚ
  students : ℚ
  weeks : ℚ
  deriving Repr, DecidableEq, Inhabited

/-- Model of JavaScript `String.prototype.includes`: `jsIncludes s sub` is
`s.includes(sub)`, i.e. `sub` occurs contiguously inside `s`. -/
def jsIncludes (s sub : String) : Bool :=
  decide (sub.data <:+: s.data)

/-- Model of JavaScript `String.prototype.toLowerCase` (ASCII letters are
lower-cased; the scripts only compare strings both of which went through
the same function, so this is adequate). -/
def jsToLower (s : String) : String :=
  String.mk (s.data.map Char.toLower)

/-- Model of JavaScript `String.prototype.trim`: drop whitespace from both
ends. -/
def jsTrim (s : String) : String :=
  String.mk (((s.data.dropWhile Char.isWhitespace).reverse.dropWhile
    Char.isWhitespace).reverse)

/-- Lexicographic comparison of character lists, modelling the JavaScript
string order used by `localeCompare` and by the default `Array.sort`
comparison in the scripts (code-unit order, embedded as code-point
order). -/
def charLeb : List Char → List Char → Bool
  | [], _ => true
  | _ :: _, [] => false
  | a :: as, b :: bs => if a = b then charLeb as bs else decide (a < b)

/-- Model of the boolean `a.localeCompare(b) ≤ 0` used as a sort
comparator. -/
def localeCompareLe (a b : String) : Bool :=
  charLeb a.data b.data

theorem charLeb_total : ∀ as bs : List Char, (charLeb as bs || charLeb bs as) = true := by
  intro as
  induction as with
  | nil => intro bs; simp [charLeb]
  | cons a t ih =>
    intro bs
    cases bs with
    | nil => simp [charLeb]
    | cons b u =>
      by_cases hab : a = b
      · subst hab
        simpa [charLeb] using ih u
      · have hne : ¬ b = a := fun h => hab h.symm
        rcases lt_or_gt_of_ne hab with h | h
        · simp [charLeb, hab, hne, h, le_of_lt h]
        · simp [charLeb, hab, hne, h, not_lt.mpr (le_of_lt h)]

theorem charLeb_trans : ∀ as bs cs : List Char,
    charLeb as bs = true → charLeb bs cs = true → charLeb as cs = true := by
  intro as
  induction as with
  | nil => intro bs cs _ _; simp [charLeb]
  | cons a t ih =>
    intro bs cs h1 h2
    cases bs with
    | nil => simp [charLeb] at h1
    | cons b u =>
      cases cs with
      | nil => simp [charLeb] at h2
      | cons c v =>
        by_cases hab : a = b <;> by_cases hbc : b = c
        · have hac : a = c := hab.trans hbc
          simp [charLeb, hab, hbc, hac] at h1 h2 ⊢
          exact ih u v h1 h2
        · have h2' : b < c := by simpa [charLeb, hbc] using h2
          have hac : ¬ a = c := by rw [hab]; exact hbc
          simp [charLeb, hac, hab, hbc]
          exact h2'
        · have h1' : a < b := by simpa [charLeb, hab] using h1
          have hac : ¬ a = c := by rw [← hbc]; exact hab
          simp [charLeb, hac, ← hbc, hab]
          exact h1'
        · have h1' : a < b := by simpa [charLeb, hab] using h1
          have h2' : b < c := by simpa [charLeb, hbc] using h2
          have hac : a < c := lt_trans h1' h2'
          simp [charLeb, ne_of_lt hac, hac]

theorem localeCompareLe_total (a b : String) :
    (localeCompareLe a b || localeCompareLe b a) = true :=
  charLeb_total a.data b.data

theorem localeCompareLe_trans {a b c : String}
    (h1 : localeCompareLe a b = true) (h2 : localeCompareLe b c = true) :
    localeCompareLe a c = true :=
  charLeb_trans a.data b.data c.data h1 h2

/-- The comparator of `filteredCourses.sort` in `applyFilters` (identical
switch in `index.js` and `listing.js`): `sortLe k a b` holds when the JS
comparator returns a value `≤ 0`, i.e. when `a` may precede `b`. -/
def sortLe (sortBy : String) (a b : Course) : Bool :=
  match sortBy with
  | "rating" => decide (b.rating ≤ a.rating)
  | "students" => decide (b.students ≤ a.students)
  | "duration" => decide (a.weeks ≤ b.weeks)
  | _ => localeCompareLe a.title b.title

theorem sortLe_total (k : String) (a b : Course) :
    (sortLe k a b || sortLe k b a) = true := by
  unfold sortLe
  split
  · simpa using le_total b.rating a.rating
  · simpa using le_total b.students a.students
  · simpa using le_total a.weeks b.weeks
  · exact localeCompareLe_total a.title b.title

theorem sortLe_trans (k : String) (a b c : Course)
    (h1 : sortLe k a b = true) (h2 : sortLe k b c = true) :
    sortLe k a c = true := by
  unfold sortLe at h1 h2 ⊢
  split at h1 <;> simp_all <;>
    first
      | exact le_trans h2 h1
      | exact le_trans h1 h2
      | exact localeCompareLe_trans h1 h2

/-- One `option` element of a select control: its `value`, its displayed
`textContent` and its `disabled` flag. -/
structure SelOption where
  value : String
  text : String
  disabled : Bool
  deriving Repr, DecidableEq, Inhabited

/-- The page state of `index.js` (home page): the global `courses` array,
the current values of the search input and of the four single-select
filters, the sort key, the option lists of the four facet selects, and the
mutable globals `filteredCourses` and `currentPage`. -/
structure HomeState where
  courses : List Course
  searchInput : String
  trackSel : String
  domainSel : String
  toolSel : String
  levelSel : String
  sortBy : String
  trackOptions : List SelOption
  domainOptions : List SelOption
  toolOptions : List SelOption
  levelOptions : List SelOption
  filteredCourses : List Course
  currentPage : Nat
  deriving Repr, DecidableEq, Inhabited

/-- Page size of the home course grid (`itemsPerPage` in `index.js`). -/
def itemsPerPage : Nat := 12

/-- Page size of the home category grid (`categoriesPerPage`). -/
def categoriesPerPage : Nat := 8

/-- The filter predicate of `applyFilters` in `index.js`: the search term
is already trimmed and lower-cased by the caller; each guard mirrors one
`return false` of the source. -/
def matchesHome (searchTerm selectedTrack selectedDomain selectedTool
    selectedLevel : String) (course : Course) : Bool :=
  if searchTerm != "" && !jsIncludes (jsToLower course.title) searchTerm then false
  else if selectedTrack != "" && course.track != selectedTrack then false
  else if selectedDomain != "" && !course.domains.contains selectedDomain then false
  else if selectedTool != "" && !course.tools.contains selectedTool then false
  else if selectedLevel != "" && course.level != selectedLevel then false
  else true

/-- `applyFilters` of `index.js`: read the controls, filter the course
array into a fresh `filteredCourses` array, sort that fresh array in place
and reset the pagination counter.  The DOM re-renders it triggers are
modelled by the separate render functions. -/
def applyFiltersHome (st : HomeState) : HomeState :=
  let searchTerm := jsToLower (jsTrim st.searchInput)
  let filteredCourses :=
    (st.courses.filter
      (matchesHome searchTerm st.trackSel st.domainSel st.toolSel st.levelSel)).mergeSort
      (sortLe st.sortBy)
  { st with filteredCourses := filteredCourses, currentPage := 1 }

/-- Model of the JavaScript idiom `x || null` applied to a select value:
the empty string becomes `none`. -/
def orNull (s : String) : Option String := if s == "" then none else some s

/-- The helper `countFor` inside `updateFilterCounts` of `index.js`: a
`reduce` over `courses` that skips records failing the search term or any
of the supplied facet values (a `none` facet, i.e. JS `null`, imposes no
constraint). -/
def countFor (courses : List Course) (searchTerm : String)
    (track domain tool level : Option String) : Nat :=
  courses.foldl (fun acc course =>
    if searchTerm != "" && !jsIncludes (jsToLower course.title) searchTerm then acc
    else if track.elim false (fun t => course.track != t) then acc
    else if domain.elim false (fun d => !course.domains.contains d) then acc
    else if tool.elim false (fun t => !course.tools.contains t) then acc
    else if level.elim false (fun l => course.level != l) then acc
    else acc + 1) 0

/-- The inline `reduce` computing the count of a domain option in
`updateFilterCounts` of `index.js`. -/
def countDomainHome (courses : List Course) (searchTerm currentTrack
    currentTool currentLevel val : String) : Nat :=
  courses.foldl (fun acc course =>
    if searchTerm != "" && !jsIncludes (jsToLower course.title) searchTerm then acc
    else if currentTrack != "" && course.track != currentTrack then acc
    else if !course.domains.contains val then acc
    else if currentTool != "" && !course.tools.contains currentTool then acc
    else if currentLevel != "" && course.level != currentLevel then acc
    else acc + 1) 0

/-- The inline `reduce` computing the count of a tool option in
`updateFilterCounts` of `index.js`. -/
def countToolHome (courses : List Course) (searchTerm currentTrack
    currentDomain currentLevel val : String) : Nat :=
  courses.foldl (fun acc course =>
    if searchTerm != "" && !jsIncludes (jsToLower course.title) searchTerm then acc
    else if currentTrack != "" && course.track != currentTrack then acc
    else if currentDomain != "" && !course.domains.contains currentDomain then acc
    else if !course.tools.contains val then acc
    else if currentLevel != "" && course.level != currentLevel then acc
    else acc + 1) 0

/-- The inline `reduce` computing the count of a level option in
`updateFilterCounts` of `index.js`. -/
def countLevelHome (courses : List Course) (searchTerm currentTrack
    currentDomain currentTool val : String) : Nat :=
  courses.foldl (fun acc course =>
    if searchTerm != "" && !jsIncludes (jsToLower course.title) searchTerm then acc
    else if currentTrack != "" && course.track != currentTrack then acc
    else if currentDomain != "" && !course.domains.contains currentDomain then acc
    else if currentTool != "" && !course.tools.contains currentTool then acc
    else if course.level != val then acc
    else acc + 1) 0

/-- The option label `` `${val} (${count})` `` written by
`updateFilterCounts`. -/
def countLabel (val : String) (count : Nat) : String :=
  val ++ " (" ++ toString count ++ ")"

/-- `updateFilterCounts` of `index.js`: returns unchanged state when the
course array is empty (`if (!courses || courses.length === 0) return`),
otherwise rewrites the label and `disabled` flag of every option of the
four facet selects. -/
def updateFilterCountsHome (st : HomeState) : HomeState :=
  if st.courses.isEmpty then st
  else
    let searchTerm := jsToLower (jsTrim st.searchInput)
    let currentTrack := st.trackSel
    let currentDomain := st.domainSel
    let currentTool := st.toolSel
    let currentLevel := st.levelSel
    let trackOptions := st.trackOptions.map fun opt =>
      if opt.value == "" then { opt with text := "All Tracks", disabled := false }
      else
        let count := countFor st.courses searchTerm (some opt.value)
          (orNull currentDomain) (orNull currentTool) (orNull currentLevel)
        { opt with text := countLabel opt.value count, disabled := count == 0 }
    let domainOptions := st.domainOptions.map fun opt =>
      if opt.value == "" then { opt with text := "All Domains", disabled := false }
      else
        let count := countDomainHome st.courses searchTerm currentTrack
          currentTool currentLevel opt.value
        { opt with text := countLabel opt.value count, disabled := count == 0 }
    let toolOptions := st.toolOptions.map fun opt =>
      if opt.value == "" then { opt with text := "All Tools", disabled := false }
      else
        let count := countToolHome st.courses searchTerm currentTrack
          currentDomain currentLevel opt.value
        { opt with text := countLabel opt.value count, disabled := count == 0 }
    let levelOptions := st.levelOptions.map fun opt =>
      if opt.value == "" then { opt with text := "All Levels", disabled := false }
      else
        let count := countLevelHome st.courses searchTerm currentTrack
          currentDomain currentTool opt.value
        { opt with text := countLabel opt.value count, disabled := count == 0 }
    { st with trackOptions := trackOptions, domainOptions := domainOptions,
              toolOptions := toolOptions, levelOptions := levelOptions }

/-- Page size of the catalog page (`coursesPerPage` in `listing.js`). -/
def coursesPerPage : Nat := 6

/-- The page state of `listing.js` (catalog page): the course array, the
search input, the selected values of the four multi-select facet filters
(the values of the `selectedOptions` of each select, still unfiltered),
the raw string values of the rating and duration selects, the sort key,
the option lists of the facet selects, and the globals `filteredCourses`
and `currentPage`. -/
structure ListingState where
  courses : List Course
  searchInput : String
  selectedTracks : List String
  selectedDomains : List String
  selectedTools : List String
  selectedLevels : List String
  ratingVal : String
  durationVal : String
  sortBy : String
  trackOptions : List SelOption
  domainOptions : List SelOption
  toolOptions : List SelOption
  levelOptions : List SelOption
  filteredCourses : List Course
  currentPage : Nat
  deriving Repr, DecidableEq, Inhabited

/-- Digit run to a natural number (helper for the `parseFloat` model). -/
def digitsToNat (cs : List Char) : Nat :=
  cs.foldl (fun n c => n * 10 + (c.toNat - 48)) 0

/-- Model of the JavaScript `parseFloat` builtin, restricted to the plain
decimal numerals that the rating select offers (`0`, `3`, `3.5`, ...):
strings made of digits with at most one decimal point parse to the
corresponding rational, anything else gives `none`, which models `NaN`
(the code guards every use with `!isNaN(...)`). -/
def jsParseFloat (s : String) : Option ℚ :=
  let cs := s.data
  if !cs.isEmpty && cs.all (fun c => c.isDigit || c == '.') &&
      decide ((cs.filter (fun c => c == '.')).length ≤ 1) && cs.any Char.isDigit then
    let intPart := cs.takeWhile (fun c => c != '.')
    let fracPart := (cs.dropWhile (fun c => c != '.')).drop 1
    some ((digitsToNat intPart : ℚ) + (digitsToNat fracPart : ℚ) / (10 ^ fracPart.length))
  else none

/-- The rating guard
`!isNaN(ratingThreshold) && ratingThreshold > 0 && course.rating < ratingThreshold`
shared by `applyFilters` and `updateFilterCounts` in `listing.js` (a
`none` threshold models `NaN`, for which the guard is off). -/
def ratingFails (ratingThreshold : Option ℚ) (rating : ℚ) : Bool :=
  ratingThreshold.elim false (fun t => decide (0 < t) && decide (rating < t))

/-- The duration-bucket guard block shared by `applyFilters` and
`updateFilterCounts` in `listing.js`: when a category other than `all` is
selected, `short` demands `weeks < 4`, `medium` demands
`4 ≤ weeks ≤ 8` and `long` demands `weeks > 8` (any other category
imposes nothing). -/
def durationOk (durationCategory : String) (w : ℚ) : Bool :=
  if durationCategory != "" && durationCategory != "all" then
    if durationCategory == "short" && !decide (w < 4) then false
    else if durationCategory == "medium" &&
        !(decide (4 ≤ w) && decide (w ≤ 8)) then false
    else if durationCategory == "long" && !decide (8 < w) then false
    else true
  else true

/-- The helper `passesRatingDuration` of `updateFilterCounts` in
`listing.js`: a record passes when neither the rating guard nor the
duration guard rejects it. -/
def passesRatingDuration (ratingThreshold : Option ℚ) (durationCategory : String)
    (course : Course) : Bool :=
  if ratingFails ratingThreshold course.rating then false
  else durationOk durationCategory course.weeks

/-- The pre-filter applied to the dataset by `updateFilterCounts` in
`listing.js` before the per-option counts (`baseFiltered`). -/
def listingBasePred (term : String) (th : Option ℚ) (cat : String) (course : Course) :
    Bool :=
  if term != "" && !jsIncludes (jsToLower course.title) term then false
  else passesRatingDuration th cat course

/-- The filter predicate of `applyFilters` in `listing.js`: the search
term is already trimmed and lower-cased and the selection lists already
went through `.filter(Boolean)`; each guard mirrors one `return false` of
the source. -/
def matchesListing (searchTerm : String)
    (selectedTracks selectedDomains selectedTools selectedLevels : List String)
    (ratingThreshold : Option ℚ) (durationCategory : String)
    (course : Course) : Bool :=
  if searchTerm != "" && !jsIncludes (jsToLower course.title) searchTerm then false
  else if !selectedTracks.isEmpty && !selectedTracks.contains course.track then false
  else if !selectedDomains.isEmpty &&
      !course.domains.any (fun d => selectedDomains.contains d) then false
  else if !selectedTools.isEmpty &&
      !course.tools.any (fun t => selectedTools.contains t) then false
  else if !selectedLevels.isEmpty && !selectedLevels.contains course.level then false
  else if ratingFails ratingThreshold course.rating then false
  else durationOk durationCategory course.weeks

/-- The rating threshold read by `listing.js`:
`parseFloat(ratingFilter.value || '0')`. -/
def ratingThresholdOf (ratingVal : String) : Option ℚ :=
  jsParseFloat (if ratingVal == "" then "0" else ratingVal)

/-- `applyFilters` of `listing.js`: normalise the inputs, filter the
course array into a fresh `filteredCourses` array, sort it and reset the
page counter. -/
def applyFiltersListing (st : ListingState) : ListingState :=
  let searchTerm := jsToLower (jsTrim st.searchInput)
  let selectedTracks := st.selectedTracks.filter (fun v => v != "")
  let selectedDomains := st.selectedDomains.filter (fun v => v != "")
  let selectedTools := st.selectedTools.filter (fun v => v != "")
  let selectedLevels := st.selectedLevels.filter (fun v => v != "")
  let ratingThreshold := ratingThresholdOf st.ratingVal
  let durationCategory := st.durationVal
  let filteredCourses :=
    (st.courses.filter (matchesListing searchTerm selectedTracks selectedDomains
      selectedTools selectedLevels ratingThreshold durationCategory)).mergeSort
      (sortLe st.sortBy)
  { st with filteredCourses := filteredCourses, currentPage := 1 }

/-- `countByTrack` of `updateFilterCounts` in `listing.js`: a `reduce`
over the pre-filtered dataset that keeps records matching the selected
domains, tools and levels and whose track equals the examined track or is
already among the selected tracks. -/
def countByTrack (baseFiltered : List Course)
    (selectedTracks selectedDomains selectedTools selectedLevels : List String)
    (track : String) : Nat :=
  baseFiltered.foldl (fun acc course =>
    if !selectedDomains.isEmpty &&
        !course.domains.any (fun d => selectedDomains.contains d) then acc
    else if !selectedTools.isEmpty &&
        !course.tools.any (fun t => selectedTools.contains t) then acc
    else if !selectedLevels.isEmpty && !selectedLevels.contains course.level then acc
    else if course.track == track || selectedTracks.contains course.track then acc + 1
    else acc) 0

/-- `countByDomain` of `updateFilterCounts` in `listing.js`. -/
def countByDomain (baseFiltered : List Course)
    (selectedTracks selectedDomains selectedTools selectedLevels : List String)
    (domain : String) : Nat :=
  baseFiltered.foldl (fun acc course =>
    if !selectedTracks.isEmpty && !selectedTracks.contains course.track then acc
    else if !selectedTools.isEmpty &&
        !course.tools.any (fun t => selectedTools.contains t) then acc
    else if !selectedLevels.isEmpty && !selectedLevels.contains course.level then acc
    else if course.domains.contains domain ||
        course.domains.any (fun d => selectedDomains.contains d) then acc + 1
    else acc) 0

/-- `countByTool` of `updateFilterCounts` in `listing.js`. -/
def countByTool (baseFiltered : List Course)
    (selectedTracks selectedDomains selectedTools selectedLevels : List String)
    (tool : String) : Nat :=
  baseFiltered.foldl (fun acc course =>
    if !selectedTracks.isEmpty && !selectedTracks.contains course.track then acc
    else if !selectedDomains.isEmpty &&
        !course.domains.any (fun d => selectedDomains.contains d) then acc
    else if !selectedLevels.isEmpty && !selectedLevels.contains course.level then acc
    else if course.tools.contains tool ||
        course.tools.any (fun t => selectedTools.contains t) then acc + 1
    else acc) 0

/-- `countByLevel` of `updateFilterCounts` in `listing.js`. -/
def countByLevel (baseFiltered : List Course)
    (selectedTracks selectedDomains selectedTools selectedLevels : List String)
    (level : String) : Nat :=
  baseFiltered.foldl (fun acc course =>
    if !selectedTracks.isEmpty && !selectedTracks.contains course.track then acc
    else if !selectedDomains.isEmpty &&
        !course.domains.any (fun d => selectedDomains.contains d) then acc
    else if !selectedTools.isEmpty &&
        !course.tools.any (fun t => selectedTools.contains t) then acc
    else if course.level == level || selectedLevels.contains course.level then acc + 1
    else acc) 0

/-- `updateFilterCounts` of `listing.js`: early return on an empty course
array, otherwise pre-filter the dataset by search term, rating and
duration (`baseFiltered`) and rewrite every option of the four facet
selects with its count. -/
def updateFilterCountsListing (st : ListingState) : ListingState :=
  if st.courses.isEmpty then st
  else
    let term := jsToLower (jsTrim st.searchInput)
    let selectedTracks := st.selectedTracks.filter (fun v => v != "")
    let selectedDomains := st.selectedDomains.filter (fun v => v != "")
    let selectedTools := st.selectedTools.filter (fun v => v != "")
    let selectedLevels := st.selectedLevels.filter (fun v => v != "")
    let ratingThreshold := ratingThresholdOf st.ratingVal
    let durationCategory := st.durationVal
    let baseFiltered :=
      st.courses.filter (listingBasePred term ratingThreshold durationCategory)
    let trackOptions := st.trackOptions.map fun opt =>
      if opt.value == "" then { opt with text := "All Tracks", disabled := false }
      else
        let count := countByTrack baseFiltered selectedTracks selectedDomains
          selectedTools selectedLevels opt.value
        { opt with text := countLabel opt.value count, disabled := count == 0 }
    let domainOptions := st.domainOptions.map fun opt =>
      if opt.value == "" then { opt with text := "All Domains", disabled := false }
      else
        let count := countByDomain baseFiltered selectedTracks selectedDomains
          selectedTools selectedLevels opt.value
        { opt with text := countLabel opt.value count, disabled := count == 0 }
    let toolOptions := st.toolOptions.map fun opt =>
      if opt.value == "" then { opt with text := "All Tools", disabled := false }
      else
        let count := countByTool baseFiltered selectedTracks selectedDomains
          selectedTools selectedLevels opt.value
        { opt with text := countLabel opt.value count, disabled := count == 0 }
    let levelOptions := st.levelOptions.map fun opt =>
      if opt.value == "" then { opt with text := "All Levels", disabled := false }
      else
        let count := countByLevel baseFiltered selectedTracks selectedDomains
          selectedTools selectedLevels opt.value
        { opt with text := countLabel opt.value count, disabled := count == 0 }
    { st with trackOptions := trackOptions, domainOptions := domainOptions,
              toolOptions := toolOptions, levelOptions := levelOptions }

/-- Results counter text `` `${n} course${n !== 1 ? 's' : ''} found` ``. -/
def resultsCountText (n : Nat) : String :=
  toString n ++ " course" ++ (if n != 1 then "s" else "") ++ " found"

/-- What `renderCourses` of `index.js` puts on the page: the results
counter, the cards actually appended, whether the no-results message is
shown and whether the Load More button is rendered. -/
structure HomeRender where
  resultsCount : String
  shown : List Course
  noResultsMessage : Bool
  loadMore : Bool
  deriving Repr, DecidableEq, Inhabited

/-- `renderCourses` of `index.js`: show the first
`currentPage * itemsPerPage` filtered courses (`slice(0, totalToShow)`);
with no results show the message and hide the Load More button, otherwise
render the cards and a Load More button exactly when more courses remain.
The state is returned unchanged alongside the render (the function only
reads the arrays). -/
def renderCoursesHome (st : HomeState) : HomeState × HomeRender :=
  let totalToShow := st.currentPage * itemsPerPage
  let coursesToShow := st.filteredCourses.take totalToShow
  if st.filteredCourses.isEmpty then
    (st, { resultsCount := resultsCountText st.filteredCourses.length,
           shown := [], noResultsMessage := true, loadMore := false })
  else
    (st, { resultsCount := resultsCountText st.filteredCourses.length,
           shown := coursesToShow, noResultsMessage := false,
           loadMore := decide (st.filteredCourses.length > coursesToShow.length) })

/-- The click handler of the Load More button in `index.js`: increment
`currentPage` (and re-render, which is modelled separately). -/
def loadMoreClick (st : HomeState) : HomeState :=
  { st with currentPage := st.currentPage + 1 }

/-- `renderPagination` of `listing.js`, reduced to its observable output:
`none` when `totalPages ≤ 1` (no controls for a single page), otherwise
the `disabled` flags of the Prev and Next buttons. -/
def renderPagination (filteredLength currentPage : Nat) : Option (Bool × Bool) :=
  let totalPages := (filteredLength + coursesPerPage - 1) / coursesPerPage
  if totalPages ≤ 1 then none
  else some (currentPage == 1, currentPage == totalPages)

/-- What `renderCourses` of `listing.js` puts on the page. -/
structure ListingRender where
  resultsCount : String
  shown : List Course
  noResultsMessage : Bool
  pagination : Option (Bool × Bool)
  deriving Repr, DecidableEq, Inhabited

/-- `renderCourses` of `listing.js`: show the slice
`filteredCourses.slice((currentPage - 1) * coursesPerPage, currentPage *
coursesPerPage)`; with no results show the message and clear the
pagination controls, otherwise render the cards and the pagination
controls. -/
def renderCoursesListing (st : ListingState) : ListingState × ListingRender :=
  let startIndex := (st.currentPage - 1) * coursesPerPage
  let coursesToShow := (st.filteredCourses.drop startIndex).take coursesPerPage
  if st.filteredCourses.isEmpty then
    (st, { resultsCount := resultsCountText st.filteredCourses.length,
           shown := [], noResultsMessage := true, pagination := none })
  else
    (st, { resultsCount := resultsCountText st.filteredCourses.length,
           shown := coursesToShow, noResultsMessage := false,
           pagination := renderPagination st.filteredCourses.length st.currentPage })

/-- Model of `Array.from(new Set(xs))`, and of `Object.keys` of a tally
object built by first insertion: the distinct elements in first-occurrence
order. -/
def jsSetDedup (xs : List String) : List String :=
  xs.foldl (fun acc x => if acc.contains x then acc else acc ++ [x]) []

/-- `renderFeaturedCourses` of `index.js`: sort a copy of the course array
(`[...courses]`) by `rating * students` descending and take the first six
cards.  The untouched state is returned alongside the cards. -/
def renderFeaturedCourses (st : HomeState) : HomeState × List Course :=
  let sortedCourses := st.courses.mergeSort
    (fun a b => decide (b.rating * b.students ≤ a.rating * a.students))
  let topCourses := sortedCourses.take 6
  (st, topCourses)

/-- `renderCategories` of `index.js`: tally the domains of all courses,
sort the domain names with `localeCompare` and show the first
`categoriesPerPage * categoriesPage` of them.  The untouched state is
returned alongside the rendered names. -/
def renderCategories (st : HomeState) (categoriesPage : Nat) : HomeState × List String :=
  let sorted := (jsSetDedup (st.courses.flatMap (fun course => course.domains))).mergeSort
    (fun a b => localeCompareLe a b)
  let visibleCount := min (categoriesPerPage * categoriesPage) sorted.length
  (st, sorted.take visibleCount)

/-- An active-filter chip: displayed label, `data-filter-type` and
`data-value`. -/
structure Chip where
  label : String
  filterType : String
  value : String
  deriving Repr, DecidableEq, Inhabited

/-- `updateActiveFilters` of `index.js`: one chip per active selection in
source order, and a Clear-all button exactly when more than one chip was
produced. -/
def updateActiveFiltersHome (st : HomeState) : List Chip × Bool :=
  let searchTerm := jsTrim st.searchInput
  let trackVal := st.trackSel
  let domainVal := st.domainSel
  let toolVal := st.toolSel
  let levelVal := st.levelSel
  let chips : List Chip :=
    (if searchTerm != "" then [⟨searchTerm, "search", searchTerm⟩] else []) ++
    (if trackVal != "" then [⟨trackVal, "track", trackVal⟩] else []) ++
    (if domainVal != "" then [⟨domainVal, "domain", domainVal⟩] else []) ++
    (if toolVal != "" then [⟨toolVal, "tool", toolVal⟩] else []) ++
    (if levelVal != "" then [⟨levelVal, "level", levelVal⟩] else [])
  (chips, decide (chips.length > 1))

/-- `removeFilter` of `index.js`, restricted to the control update of its
`switch`: clear exactly the named control. -/
def clearFilterControlHome (filterType : String) (st : HomeState) : HomeState :=
  match filterType with
  | "search" => { st with searchInput := "" }
  | "track" => { st with trackSel := "" }
  | "domain" => { st with domainSel := "" }
  | "tool" => { st with toolSel := "" }
  | "level" => { st with levelSel := "" }
  | _ => st

/-- `removeFilter` of `index.js`: clear the named control, then
`applyFilters()`. -/
def removeFilterHome (filterType value : String) (st : HomeState) : HomeState :=
  let _ := value
  applyFiltersHome (clearFilterControlHome filterType st)

/-- The duration chip label of `updateActiveFilters` in `listing.js`. -/
def durationChipLabel (durationVal : String) : String :=
  match durationVal with
  | "short" => "< 4 weeks"
  | "medium" => "4–8 weeks"
  | "long" => "> 8 weeks"
  | _ => durationVal

/-- `updateActiveFilters` of `listing.js`: one chip per active selection
(search term, every selected track/domain/tool/level, a rating chip when
the rating value is truthy and not `'0'`, a duration chip when the
duration value is truthy and not `'all'`), and a Clear-all button exactly
when more than one chip was produced. -/
def updateActiveFiltersListing (st : ListingState) : List Chip × Bool :=
  let searchTerm := jsTrim st.searchInput
  let selectedTracks := st.selectedTracks.filter (fun v => v != "")
  let selectedDomains := st.selectedDomains.filter (fun v => v != "")
  let selectedTools := st.selectedTools.filter (fun v => v != "")
  let selectedLevels := st.selectedLevels.filter (fun v => v != "")
  let ratingVal := st.ratingVal
  let durationVal := st.durationVal
  let chips : List Chip :=
    (if searchTerm != "" then [⟨searchTerm, "search", searchTerm⟩] else []) ++
    selectedTracks.map (fun t => ⟨t, "track", t⟩) ++
    selectedDomains.map (fun d => ⟨d, "domain", d⟩) ++
    selectedTools.map (fun t => ⟨t, "tool", t⟩) ++
    selectedLevels.map (fun l => ⟨l, "level", l⟩) ++
    (if ratingVal != "" && ratingVal != "0" then
      [⟨"Rating ≥ " ++ ratingVal, "rating", ratingVal⟩] else []) ++
    (if durationVal != "" && durationVal != "all" then
      [⟨durationChipLabel durationVal, "duration", durationVal⟩] else [])
  (chips, decide (chips.length > 1))

/-- `removeFilter` of `listing.js`, restricted to the control update of
its `switch`: deselect the options carrying the removed value in the
named multi-select, or reset the rating/duration/search control. -/
def clearFilterControlListing (filterType value : String) (st : ListingState) :
    ListingState :=
  match filterType with
  | "track" => { st with selectedTracks := st.selectedTracks.filter (fun v => v != value) }
  | "domain" => { st with selectedDomains := st.selectedDomains.filter (fun v => v != value) }
  | "tool" => { st with selectedTools := st.selectedTools.filter (fun v => v != value) }
  | "level" => { st with selectedLevels := st.selectedLevels.filter (fun v => v != value) }
  | "rating" => { st with ratingVal := "0" }
  | "duration" => { st with durationVal := "all" }
  | "search" => { st with searchInput := "" }
  | _ => st

/-- `removeFilter` of `listing.js`: update the named control, then
`applyFilters()`. -/
def removeFilterListing (filterType value : String) (st : ListingState) : ListingState :=
  applyFiltersListing (clearFilterControlListing filterType value st)

/-- Model of the regex replacement `/\(.*?\)/g` used to sanitise names:
drop every non-greedy parenthesised group (an unmatched opening bracket is
kept, as the regex does not match it). -/
def stripParens : List Char → List Char
  | [] => []
  | c :: rest =>
    if c = '(' && rest.contains ')' then
      stripParens ((rest.dropWhile (fun d => d != ')')).drop 1)
    else c :: stripParens rest
termination_by l => l.length
decreasing_by
  · have h1 : (rest.dropWhile (fun d => d != ')')).length ≤ rest.length :=
      (List.dropWhile_sublist _).length_le
    have h2 : ((rest.dropWhile (fun d => d != ')')).drop 1).length ≤
        (rest.dropWhile (fun d => d != ')')).length := by
      simp [List.length_drop]
    simp only [List.length_cons]
    omega
  · simp only [List.length_cons]; omega

/-- The name sanitisation applied before building descriptive text:
`.replace(/\(.*?\)/g, '').replace(/["'<>]/g, '').trim()`. -/
def cleanedName (name : String) : String :=
  jsTrim (String.mk ((stripParens name.data).filter
    (fun c => !(['"', '\'', '<', '>'].contains c))))

/-- Hex digit used by the `encodeURIComponent` model (upper case, as in
JavaScript). -/
def hexDigitChar (n : Nat) : Char :=
  if n < 10 then Char.ofNat (48 + n) else Char.ofNat (55 + n)

/-- UTF-8 bytes of a character (helper for `encodeURIComponent`). -/
def utf8Units (c : Char) : List Nat :=
  let n := c.toNat
  if n < 128 then [n]
  else if n < 2048 then [192 + n / 64, 128 + n % 64]
  else if n < 65536 then [224 + n / 4096, 128 + (n / 64) % 64, 128 + n % 64]
  else [240 + n / 262144, 128 + (n / 4096) % 64, 128 + (n / 64) % 64, 128 + n % 64]

/-- Model of the JavaScript `encodeURIComponent` builtin: unreserved
characters pass through, everything else is percent-encoded byte by
byte. -/
def encodeURIComponent (s : String) : String :=
  String.mk (s.data.flatMap (fun c =>
    if c.isAlphanum || ['-', '_', '.', '!', '~', '*', '\'', '(', ')'].contains c then [c]
    else (utf8Units c).flatMap
      (fun b => ['%', hexDigitChar (b / 16), hexDigitChar (b % 16)])))

/-- `generateDomainDescription` of `domain.js`. -/
def generateDomainDescription (domainName : String) : String :=
  let cleanName := cleanedName domainName
  let url := "listing.html?domain=" ++ encodeURIComponent domainName
  "Courses in the " ++ cleanName ++
    " domain teach you key skills and concepts. Explore tools and courses below to find your perfect match. <a href=\"" ++
    url ++ "\" class=\"text-blue-600 underline\" rel=\"noopener noreferrer\">View all " ++
    cleanName ++ " courses</a>."

/-- `generateTrackDescription` of `track.js`. -/
def generateTrackDescription (track : String) : String :=
  let cleanName := cleanedName track
  let url := "listing.html?track=" ++ encodeURIComponent track
  "The " ++ cleanName ++
    " track covers a curated set of courses designed to help you master key concepts and skills. Browse domains, tools and courses below to dive deeper. <a href=\"" ++
    url ++ "\" class=\"text-blue-600 underline\" rel=\"noopener noreferrer\">See all " ++
    cleanName ++ " courses</a>."

/-- What the single-domain (or single-track) branch of a browsing page
renders: the heading, the description area, whether the no-courses
message is displayed, the name/count group cards (tool cards on the
domain page, domain cards on the track page) and the rendered course
cards. -/
structure BrowseRender where
  heading : String
  description : String
  messageShown : Bool
  groupCards : List (String × Nat)
  courseCards : List Course
  deriving Repr, DecidableEq, Inhabited

/-- `init` of `domain.js` for a present (non-empty) `domain` query
parameter: filter by the exact domain, fall back to the first known
domain name containing the parameter case-insensitively, and either show
the `No courses found for this domain.` message (rendering nothing else)
or render the tool cards and the title-sorted course cards. -/
def domainPageInit (courses : List Course) (domainParam : String) : BrowseRender :=
  let filtered0 := courses.filter (fun course => course.domains.contains domainParam)
  let resolved :=
    if filtered0.isEmpty then
      let lowerParam := jsToLower domainParam
      let allDomains := jsSetDedup (courses.flatMap (fun course => course.domains))
      match allDomains.find? (fun d => jsIncludes (jsToLower d) lowerParam) with
      | some m => (m, courses.filter (fun course => course.domains.contains m))
      | none => (domainParam, filtered0)
    else (domainParam, filtered0)
  let domainName := resolved.1
  let filtered := resolved.2
  if filtered.isEmpty then
    { heading := domainName, description := "No courses found for this domain.",
      messageShown := true, groupCards := [], courseCards := [] }
  else
    let allTools := filtered.flatMap (fun course => course.tools)
    let toolNames := (jsSetDedup allTools).mergeSort (fun a b => localeCompareLe a b)
    { heading := domainName,
      description := generateDomainDescription domainName,
      messageShown := false,
      groupCards := toolNames.map (fun tool => (tool, allTools.count tool)),
      courseCards := filtered.mergeSort (fun a b => localeCompareLe a.title b.title) }

/-- `init` of `track.js` for a present (non-empty) `track` query
parameter: filter by the exact track, fall back to the first known track
name containing the parameter case-insensitively, and either show the
`No courses found for this track.` message (rendering nothing else) or
render the domain cards and the title-sorted course cards. -/
def trackPageInit (courses : List Course) (trackParam : String) : BrowseRender :=
  let filtered0 := courses.filter (fun c => c.track == trackParam)
  let resolved :=
    if filtered0.isEmpty then
      let lowerParam := jsToLower trackParam
      let allTracks := jsSetDedup (courses.map (fun c => c.track))
      match allTracks.find? (fun t => jsIncludes (jsToLower t) lowerParam) with
      | some m => (m, courses.filter (fun c => c.track == m))
      | none => (trackParam, filtered0)
    else (trackParam, filtered0)
  let track := resolved.1
  let filtered := resolved.2
  if filtered.isEmpty then
    { heading := track, description := "No courses found for this track.",
      messageShown := true, groupCards := [], courseCards := [] }
  else
    let allDomains := filtered.flatMap (fun course => course.domains)
    let domainNames := (jsSetDedup allDomains).mergeSort (fun a b => localeCompareLe a b)
    { heading := track,
      description := generateTrackDescription track,
      messageShown := false,
      groupCards := domainNames.map (fun domain => (domain, allDomains.count domain)),
      courseCards := filtered.mergeSort (fun a b => localeCompareLe a.title b.title) }

/-- The state touched by `theme.js`: whether the root element carries the
`dark` class, and the localStorage contents (an association list of
key/value pairs). -/
structure ThemeState where
  dark : Bool
  storage : List (String × String)
  deriving Repr, DecidableEq, Inhabited

/-- Model of `localStorage.getItem`. -/
def lsGetItem (storage : List (String × String)) (key : String) : Option String :=
  (storage.find? (fun kv => kv.fst == key)).map (fun kv => kv.snd)

/-- Model of `localStorage.setItem`: overwrite an existing entry in place
or append a new one. -/
def lsSetItem (storage : List (String × String)) (key value : String) :
    List (String × String) :=
  if storage.any (fun kv => kv.fst == key) then
    storage.map (fun kv => if kv.fst == key then (key, value) else kv)
  else storage ++ [(key, value)]

/-- `applySavedTheme` of `theme.js`: add the `dark` class exactly when the
stored `theme` value is `'dark'` (any other or missing value removes
it). -/
def applySavedTheme (st : ThemeState) : ThemeState :=
  { st with dark := lsGetItem st.storage "theme" == some "dark" }

/-- `toggleDarkMode` of `theme.js`: toggle the `dark` class and persist
`'dark'` or `'light'` under the single key `theme`. -/
def toggleDarkMode (st : ThemeState) : ThemeState :=
  let isDark := !st.dark
  { dark := isDark,
    storage := lsSetItem st.storage "theme" (if isDark then "dark" else "light") }

/-- The icon pool `domainIcons` of `index.js`. -/
def domainIcons : List String :=
  ["fa-brain", "fa-robot", "fa-atom", "fa-chart-line", "fa-cubes",
   "fa-microscope", "fa-dna", "fa-laptop-code", "fa-layer-group", "fa-flask",
   "fa-rocket", "fa-satellite-dish", "fa-shield-alt", "fa-vr-cardboard",
   "fa-magnet"]

/-- The icon pool `domainIcons` of `home.js` (an independent copy of the
same list). -/
def domainIconsHome : List String :=
  ["fa-brain", "fa-robot", "fa-atom", "fa-chart-line", "fa-cubes",
   "fa-microscope", "fa-dna", "fa-laptop-code", "fa-layer-group", "fa-flask",
   "fa-rocket", "fa-satellite-dish", "fa-shield-alt", "fa-vr-cardboard",
   "fa-magnet"]

/-- UTF-16 code units of a character, modelling `charCodeAt` over the
string indices (characters beyond the basic plane contribute their
surrogate pair). -/
def utf16Units (c : Char) : List Nat :=
  let n := c.toNat
  if n < 65536 then [n]
  else [55296 + (n - 65536) / 1024, 56320 + (n - 65536) % 1024]

/-- The `sum of charCodeAt` hash shared by both `getIconForDomain`
implementations. -/
def charCodeSum (s : String) : Nat :=
  (s.data.flatMap utf16Units).foldl (fun a b => a + b) 0

/-- `getIconForDomain` of `index.js`. -/
def getIconForDomain (domain : String) : String :=
  (domainIcons.getD (charCodeSum domain % domainIcons.length) "")

/-- `getIconForDomain` of `home.js`. -/
def getIconForDomainHome (domain : String) : String :=
  (domainIconsHome.getD (charCodeSum domain % domainIconsHome.length) "")

theorem foldl_count {α : Type} (f : Nat → α → Nat) (p : α → Bool)
    (hf : ∀ n a, f n a = if p a then n + 1 else n) :
    ∀ (l : List α) (n : Nat), l.foldl f n = n + l.countP p := by
  intro l
  induction l with
  | nil => intro n; simp
  | cons a t ih =>
    intro n
    rw [List.foldl_cons, hf, List.countP_cons]
    by_cases h : p a = true
    · simp only [h, if_true]
      rw [ih]
      omega
    · simp only [Bool.not_eq_true] at h
      simp only [h]
      rw [ih]
      simp

theorem strGuard_iff (x : String) (b : Bool) :
    ((!(x != "" && !b)) = true) ↔ (x = "" ∨ b = true) := by
  by_cases hx : x = "" <;> cases b <;> simp [hx]

theorem eqGuard_iff (x v : String) :
    ((!(x != "" && v != x)) = true) ↔ (x = "" ∨ v = x) := by
  by_cases hx : x = "" <;> by_cases hv : v = x <;> simp [hx, hv]

theorem listGuard_iff (l : List String) (b : Bool) :
    ((!(!l.isEmpty && !b)) = true) ↔ (l = [] ∨ b = true) := by
  by_cases hl : l = [] <;> cases b <;> simp [hl]

theorem matchesHome_eq (term tr d tl lv : String) (c : Course) :
    matchesHome term tr d tl lv c =
      ((!(term != "" && !jsIncludes (jsToLower c.title) term)) &&
       (!(tr != "" && c.track != tr)) &&
       (!(d != "" && !c.domains.contains d)) &&
       (!(tl != "" && !c.tools.contains tl)) &&
       (!(lv != "" && c.level != lv))) := by
  unfold matchesHome
  cases h1 : (term != "" && !jsIncludes (jsToLower c.title) term) <;>
    cases h2 : (tr != "" && c.track != tr) <;>
    cases h3 : (d != "" && !c.domains.contains d) <;>
    cases h4 : (tl != "" && !c.tools.contains tl) <;>
    cases h5 : (lv != "" && c.level != lv) <;>
    simp [h1, h2, h3, h4, h5]

theorem matchesHome_iff (term tr d tl lv : String) (c : Course) :
    matchesHome term tr d tl lv c = true ↔
      (term = "" ∨ jsIncludes (jsToLower c.title) term = true) ∧
      (tr = "" ∨ c.track = tr) ∧
      (d = "" ∨ c.domains.contains d = true) ∧
      (tl = "" ∨ c.tools.contains tl = true) ∧
      (lv = "" ∨ c.level = lv) := by
  rw [matchesHome_eq]
  simp only [Bool.and_eq_true, strGuard_iff, eqGuard_iff, and_assoc]

theorem ratingFails_eq_false_iff (th : Option ℚ) (r : ℚ) :
    ratingFails th r = false ↔ ∀ t : ℚ, th = some t → 0 < t → t ≤ r := by
  unfold ratingFails
  cases th with
  | none => simp
  | some t =>
    simp only [Option.elim_some, Bool.and_eq_false_iff, decide_eq_false_iff_not, not_lt,
      Option.some.injEq]
    constructor
    · rintro (h | h) u hu
      · intro h0; exact absurd h0 (by simpa [← hu] using h)
      · intro _; simpa [← hu] using h
    · intro h
      by_cases h0 : 0 < t
      · exact Or.inr (h t rfl h0)
      · exact Or.inl (not_lt.mp h0)

theorem durationOk_iff (cat : String) (w : ℚ) :
    durationOk cat w = true ↔
      (cat = "short" → w < 4) ∧ (cat = "medium" → 4 ≤ w ∧ w ≤ 8) ∧
      (cat = "long" → 8 < w) := by
  unfold durationOk
  by_cases hs : cat = "short"
  · subst hs; simp
  · by_cases hm : cat = "medium"
    · subst hm; simp
    · by_cases hl : cat = "long"
      · subst hl; simp
      · by_cases he : cat = ""
        · subst he; simp
        · by_cases ha : cat = "all"
          · subst ha; simp
          · simp [hs, hm, hl, he, ha]

theorem passesRatingDuration_iff (th : Option ℚ) (cat : String) (c : Course) :
    passesRatingDuration th cat c = true ↔
      (∀ t : ℚ, th = some t → 0 < t → t ≤ c.rating) ∧
      (cat = "short" → c.weeks < 4) ∧
      (cat = "medium" → 4 ≤ c.weeks ∧ c.weeks ≤ 8) ∧
      (cat = "long" → 8 < c.weeks) := by
  unfold passesRatingDuration
  cases hrf : ratingFails th c.rating with
  | false =>
    have hp : ∀ t : ℚ, th = some t → 0 < t → t ≤ c.rating :=
      (ratingFails_eq_false_iff th c.rating).mp hrf
    simp [hrf, durationOk_iff]
    exact fun _ _ _ => hp
  | true =>
    have hnp : ¬ (∀ t : ℚ, th = some t → 0 < t → t ≤ c.rating) := by
      rw [← ratingFails_eq_false_iff th c.rating]
      simp [hrf]
    simp only [hrf, if_true]
    constructor
    · intro h; exact absurd h (by simp)
    · intro h; exact absurd h.1 hnp

theorem matchesListing_iff (term : String)
    (selT selD selTo selL : List String) (th : Option ℚ) (cat : String) (c : Course) :
    matchesListing term selT selD selTo selL th cat c = true ↔
      (term = "" ∨ jsIncludes (jsToLower c.title) term = true) ∧
      (selT = [] ∨ selT.contains c.track = true) ∧
      (selD = [] ∨ c.domains.any (fun d => selD.contains d) = true) ∧
      (selTo = [] ∨ c.tools.any (fun t => selTo.contains t) = true) ∧
      (selL = [] ∨ selL.contains c.level = true) ∧
      (∀ t : ℚ, th = some t → 0 < t → t ≤ c.rating) ∧
      (cat = "short" → c.weeks < 4) ∧
      (cat = "medium" → 4 ≤ c.weeks ∧ c.weeks ≤ 8) ∧
      (cat = "long" → 8 < c.weeks) := by
  have hmain : matchesListing term selT selD selTo selL th cat c =
      ((!(term != "" && !jsIncludes (jsToLower c.title) term)) &&
       (!(!selT.isEmpty && !selT.contains c.track)) &&
       (!(!selD.isEmpty && !c.domains.any (fun d => selD.contains d))) &&
       (!(!selTo.isEmpty && !c.tools.any (fun t => selTo.contains t))) &&
       (!(!selL.isEmpty && !selL.contains c.level)) &&
       passesRatingDuration th cat c) := by
    unfold matchesListing passesRatingDuration
    cases h1 : (term != "" && !jsIncludes (jsToLower c.title) term) <;>
      cases h2 : (!selT.isEmpty && !selT.contains c.track) <;>
      cases h3 : (!selD.isEmpty && !c.domains.any (fun d => selD.contains d)) <;>
      cases h4 : (!selTo.isEmpty && !c.tools.any (fun t => selTo.contains t)) <;>
      cases h5 : (!selL.isEmpty && !selL.contains c.level) <;>
      cases h6 : ratingFails th c.rating <;>
      simp [h1, h2, h3, h4, h5, h6]
  rw [hmain]
  simp only [Bool.and_eq_true, strGuard_iff, listGuard_iff, passesRatingDuration_iff,
    and_assoc]

theorem countFor_spec (courses : List Course) (term v d tl lv : String) (hv : v ≠ "") :
    countFor courses term (some v) (orNull d) (orNull tl) (orNull lv) =
      (courses.filter (matchesHome term v d tl lv)).length := by
  have hv' : (v != "") = true := by simpa using hv
  have hf : ∀ (n : Nat) (c : Course),
      (if term != "" && !jsIncludes (jsToLower c.title) term then n
       else if (some v).elim false (fun t => c.track != t) then n
       else if (orNull d).elim false (fun x => !c.domains.contains x) then n
       else if (orNull tl).elim false (fun x => !c.tools.contains x) then n
       else if (orNull lv).elim false (fun x => c.level != x) then n
       else n + 1) = if matchesHome term v d tl lv c then n + 1 else n := by
    intro n c
    by_cases hd : d = "" <;> by_cases htl : tl = "" <;> by_cases hlv : lv = "" <;>
      cases hA : (term != "" && !jsIncludes (jsToLower c.title) term) <;>
      cases hB : (c.track != v) <;>
      cases hC : (c.domains.contains d) <;>
      cases hD : (c.tools.contains tl) <;>
      cases hE : (c.level != lv) <;>
      simp [matchesHome, orNull, hv', hd, htl, hlv, hA, hB, hC, hD, hE, ite_and]
  rw [← List.countP_eq_length_filter]
  unfold countFor
  rw [foldl_count _ _ hf]
  simp

theorem countDomainHome_spec (courses : List Course) (term tr tlc lvc v : String)
    (hv : v ≠ "") :
    countDomainHome courses term tr tlc lvc v =
      (courses.filter (matchesHome term tr v tlc lvc)).length := by
  have hv' : (v != "") = true := by simpa using hv
  have hf : ∀ (n : Nat) (c : Course),
      (if term != "" && !jsIncludes (jsToLower c.title) term then n
       else if tr != "" && c.track != tr then n
       else if !c.domains.contains v then n
       else if tlc != "" && !c.tools.contains tlc then n
       else if lvc != "" && c.level != lvc then n
       else n + 1) = if matchesHome term tr v tlc lvc c then n + 1 else n := by
    intro n c
    cases hA : (term != "" && !jsIncludes (jsToLower c.title) term) <;>
      cases hB : (tr != "" && c.track != tr) <;>
      cases hC : (c.domains.contains v) <;>
      cases hD : (tlc != "" && !c.tools.contains tlc) <;>
      cases hE : (lvc != "" && c.level != lvc) <;>
      simp only [matchesHome, hA, hB, hC, hD, hE, hv', Bool.not_true, Bool.not_false,
        Bool.and_true, Bool.and_false, Bool.true_and, Bool.false_and, eq_self_iff_true,
        if_true, if_false, Bool.false_eq_true, Bool.true_eq_false]
  rw [← List.countP_eq_length_filter]
  unfold countDomainHome
  rw [foldl_count _ _ hf]
  simp

theorem countToolHome_spec (courses : List Course) (term tr dc lvc v : String)
    (hv : v ≠ "") :
    countToolHome courses term tr dc lvc v =
      (courses.filter (matchesHome term tr dc v lvc)).length := by
  have hv' : (v != "") = true := by simpa using hv
  have hf : ∀ (n : Nat) (c : Course),
      (if term != "" && !jsIncludes (jsToLower c.title) term then n
       else if tr != "" && c.track != tr then n
       else if dc != "" && !c.domains.contains dc then n
       else if !c.tools.contains v then n
       else if lvc != "" && c.level != lvc then n
       else n + 1) = if matchesHome term tr dc v lvc c then n + 1 else n := by
    intro n c
    cases hA : (term != "" && !jsIncludes (jsToLower c.title) term) <;>
      cases hB : (tr != "" && c.track != tr) <;>
      cases hC : (dc != "" && !c.domains.contains dc) <;>
      cases hD : (c.tools.contains v) <;>
      cases hE : (lvc != "" && c.level != lvc) <;>
      simp only [matchesHome, hA, hB, hC, hD, hE, hv', Bool.not_true, Bool.not_false,
        Bool.and_true, Bool.and_false, Bool.true_and, Bool.false_and, eq_self_iff_true,
        if_true, if_false, Bool.false_eq_true, Bool.true_eq_false]
  rw [← List.countP_eq_length_filter]
  unfold countToolHome
  rw [foldl_count _ _ hf]
  simp

theorem countLevelHome_spec (courses : List Course) (term tr dc tlc v : String)
    (hv : v ≠ "") :
    countLevelHome courses term tr dc tlc v =
      (courses.filter (matchesHome term tr dc tlc v)).length := by
  have hv' : (v != "") = true := by simpa using hv
  have hf : ∀ (n : Nat) (c : Course),
      (if term != "" && !jsIncludes (jsToLower c.title) term then n
       else if tr != "" && c.track != tr then n
       else if dc != "" && !c.domains.contains dc then n
       else if tlc != "" && !c.tools.contains tlc then n
       else if c.level != v then n
       else n + 1) = if matchesHome term tr dc tlc v c then n + 1 else n := by
    intro n c
    cases hA : (term != "" && !jsIncludes (jsToLower c.title) term) <;>
      cases hB : (tr != "" && c.track != tr) <;>
      cases hC : (dc != "" && !c.domains.contains dc) <;>
      cases hD : (tlc != "" && !c.tools.contains tlc) <;>
      cases hE : (c.level != v) <;>
      simp only [matchesHome, hA, hB, hC, hD, hE, hv', Bool.not_true, Bool.not_false,
        Bool.and_true, Bool.and_false, Bool.true_and, Bool.false_and, eq_self_iff_true,
        if_true, if_false, Bool.false_eq_true, Bool.true_eq_false]
  rw [← List.countP_eq_length_filter]
  unfold countLevelHome
  rw [foldl_count _ _ hf]
  simp

theorem any_beq_or (l : List String) (v : String) (p : String → Bool) :
    l.any (fun d => (d == v) || p d) = (l.contains v || l.any p) := by
  rw [Bool.eq_iff_iff]
  simp only [List.any_eq_true, Bool.or_eq_true, List.elem_iff, beq_iff_eq]
  constructor
  · rintro ⟨x, hx, hxv | hpx⟩
    · exact Or.inl (hxv ▸ hx)
    · exact Or.inr ⟨x, hx, hpx⟩
  · rintro (hv | ⟨x, hx, hpx⟩)
    · exact ⟨v, hv, Or.inl rfl⟩
    · exact ⟨x, hx, Or.inr hpx⟩

theorem countByTrack_spec (courses : List Course) (term : String)
    (selT selD selTo selL : List String) (th : Option ℚ) (cat : String) (v : String) :
    countByTrack (courses.filter (listingBasePred term th cat)) selT selD selTo selL v =
      (courses.filter (matchesListing term (v :: selT) selD selTo selL th cat)).length := by
  have hf : ∀ (n : Nat) (c : Course),
      (if !selD.isEmpty && !c.domains.any (fun d => selD.contains d) then n
       else if !selTo.isEmpty && !c.tools.any (fun t => selTo.contains t) then n
       else if !selL.isEmpty && !selL.contains c.level then n
       else if c.track == v || selT.contains c.track then n + 1
       else n) =
      if ((!(!selD.isEmpty && !c.domains.any (fun d => selD.contains d))) &&
          (!(!selTo.isEmpty && !c.tools.any (fun t => selTo.contains t))) &&
          (!(!selL.isEmpty && !selL.contains c.level)) &&
          (c.track == v || selT.contains c.track)) then n + 1 else n := by
    intro n c
    cases hGD : (!selD.isEmpty && !c.domains.any (fun d => selD.contains d)) <;>
      cases hGT : (!selTo.isEmpty && !c.tools.any (fun t => selTo.contains t)) <;>
      cases hGL : (!selL.isEmpty && !selL.contains c.level) <;>
      cases hTk : (c.track == v || selT.contains c.track) <;>
      simp [hGD, hGT, hGL, hTk]
  unfold countByTrack
  rw [foldl_count _ _ hf, List.countP_filter, ← List.countP_eq_length_filter]
  rw [Nat.zero_add]
  apply List.countP_congr
  intro c _
  cases hA : (term != "" && !jsIncludes (jsToLower c.title) term) <;>
    cases hGD : (!selD.isEmpty && !c.domains.any (fun d => selD.contains d)) <;>
    cases hGT : (!selTo.isEmpty && !c.tools.any (fun t => selTo.contains t)) <;>
    cases hGL : (!selL.isEmpty && !selL.contains c.level) <;>
    cases hTk : (c.track == v || selT.contains c.track) <;>
    cases hRF : ratingFails th c.rating <;>
    simp only [matchesListing, passesRatingDuration, listingBasePred, hA, hGD, hGT, hGL,
      hTk, hRF, List.isEmpty_cons, List.contains_cons, Bool.not_true, Bool.not_false,
      Bool.and_true, Bool.and_false, Bool.true_and, Bool.false_and, eq_self_iff_true,
      if_true, if_false, Bool.false_eq_true, Bool.true_eq_false, Bool.or_false,
      Bool.false_or, Bool.or_true, Bool.true_or]

theorem countByDomain_spec (courses : List Course) (term : String)
    (selT selD selTo selL : List String) (th : Option ℚ) (cat : String) (v : String) :
    countByDomain (courses.filter (listingBasePred term th cat)) selT selD selTo selL v =
      (courses.filter (matchesListing term selT (v :: selD) selTo selL th cat)).length := by
  have hf : ∀ (n : Nat) (c : Course),
      (if !selT.isEmpty && !selT.contains c.track then n
       else if !selTo.isEmpty && !c.tools.any (fun t => selTo.contains t) then n
       else if !selL.isEmpty && !selL.contains c.level then n
       else if c.domains.contains v || c.domains.any (fun d => selD.contains d) then n + 1
       else n) =
      if ((!(!selT.isEmpty && !selT.contains c.track)) &&
          (!(!selTo.isEmpty && !c.tools.any (fun t => selTo.contains t))) &&
          (!(!selL.isEmpty && !selL.contains c.level)) &&
          (c.domains.contains v || c.domains.any (fun d => selD.contains d))) then
        n + 1 else n := by
    intro n c
    cases hGT2 : (!selT.isEmpty && !selT.contains c.track) <;>
      cases hGT : (!selTo.isEmpty && !c.tools.any (fun t => selTo.contains t)) <;>
      cases hGL : (!selL.isEmpty && !selL.contains c.level) <;>
      cases hDm : (c.domains.contains v || c.domains.any (fun d => selD.contains d)) <;>
      simp [hGT2, hGT, hGL, hDm]
  unfold countByDomain
  rw [foldl_count _ _ hf, List.countP_filter, ← List.countP_eq_length_filter]
  rw [Nat.zero_add]
  apply List.countP_congr
  intro c _
  cases hA : (term != "" && !jsIncludes (jsToLower c.title) term) <;>
    cases hGT2 : (!selT.isEmpty && !selT.contains c.track) <;>
    cases hGT : (!selTo.isEmpty && !c.tools.any (fun t => selTo.contains t)) <;>
    cases hGL : (!selL.isEmpty && !selL.contains c.level) <;>
    cases hDm : (c.domains.contains v || c.domains.any (fun d => selD.contains d)) <;>
    cases hRF : ratingFails th c.rating <;>
    simp only [matchesListing, passesRatingDuration, listingBasePred, any_beq_or, hA,
      hGT2, hGT, hGL, hDm, hRF, List.isEmpty_cons, List.contains_cons, Bool.not_true,
      Bool.not_false, Bool.and_true, Bool.and_false, Bool.true_and, Bool.false_and,
      eq_self_iff_true, if_true, if_false, Bool.false_eq_true, Bool.true_eq_false,
      Bool.or_false, Bool.false_or, Bool.or_true, Bool.true_or]

theorem countByTool_spec (courses : List Course) (term : String)
    (selT selD selTo selL : List String) (th : Option ℚ) (cat : String) (v : String) :
    countByTool (courses.filter (listingBasePred term th cat)) selT selD selTo selL v =
      (courses.filter (matchesListing term selT selD (v :: selTo) selL th cat)).length := by
  have hf : ∀ (n : Nat) (c : Course),
      (if !selT.isEmpty && !selT.contains c.track then n
       else if !selD.isEmpty && !c.domains.any (fun d => selD.contains d) then n
       else if !selL.isEmpty && !selL.contains c.level then n
       else if c.tools.contains v || c.tools.any (fun t => selTo.contains t) then n + 1
       else n) =
      if ((!(!selT.isEmpty && !selT.contains c.track)) &&
          (!(!selD.isEmpty && !c.domains.any (fun d => selD.contains d))) &&
          (!(!selL.isEmpty && !selL.contains c.level)) &&
          (c.tools.contains v || c.tools.any (fun t => selTo.contains t))) then
        n + 1 else n := by
    intro n c
    cases hGT2 : (!selT.isEmpty && !selT.contains c.track) <;>
      cases hGD : (!selD.isEmpty && !c.domains.any (fun d => selD.contains d)) <;>
      cases hGL : (!selL.isEmpty && !selL.contains c.level) <;>
      cases hTl : (c.tools.contains v || c.tools.any (fun t => selTo.contains t)) <;>
      simp [hGT2, hGD, hGL, hTl]
  unfold countByTool
  rw [foldl_count _ _ hf, List.countP_filter, ← List.countP_eq_length_filter]
  rw [Nat.zero_add]
  apply List.countP_congr
  intro c _
  cases hA : (term != "" && !jsIncludes (jsToLower c.title) term) <;>
    cases hGT2 : (!selT.isEmpty && !selT.contains c.track) <;>
    cases hGD : (!selD.isEmpty && !c.domains.any (fun d => selD.contains d)) <;>
    cases hGL : (!selL.isEmpty && !selL.contains c.level) <;>
    cases hTl : (c.tools.contains v || c.tools.any (fun t => selTo.contains t)) <;>
    cases hRF : ratingFails th c.rating <;>
    simp only [matchesListing, passesRatingDuration, listingBasePred, any_beq_or, hA,
      hGT2, hGD, hGL, hTl, hRF, List.isEmpty_cons, List.contains_cons, Bool.not_true,
      Bool.not_false, Bool.and_true, Bool.and_false, Bool.true_and, Bool.false_and,
      eq_self_iff_true, if_true, if_false, Bool.false_eq_true, Bool.true_eq_false,
      Bool.or_false, Bool.false_or, Bool.or_true, Bool.true_or]

theorem countByLevel_spec (courses : List Course) (term : String)
    (selT selD selTo selL : List String) (th : Option ℚ) (cat : String) (v : String) :
    countByLevel (courses.filter (listingBasePred term th cat)) selT selD selTo selL v =
      (courses.filter (matchesListing term selT selD selTo (v :: selL) th cat)).length := by
  have hf : ∀ (n : Nat) (c : Course),
      (if !selT.isEmpty && !selT.contains c.track then n
       else if !selD.isEmpty && !c.domains.any (fun d => selD.contains d) then n
       else if !selTo.isEmpty && !c.tools.any (fun t => selTo.contains t) then n
       else if c.level == v || selL.contains c.level then n + 1
       else n) =
      if ((!(!selT.isEmpty && !selT.contains c.track)) &&
          (!(!selD.isEmpty && !c.domains.any (fun d => selD.contains d))) &&
          (!(!selTo.isEmpty && !c.tools.any (fun t => selTo.contains t))) &&
          (c.level == v || selL.contains c.level)) then n + 1 else n := by
    intro n c
    cases hGT2 : (!selT.isEmpty && !selT.contains c.track) <;>
      cases hGD : (!selD.isEmpty && !c.domains.any (fun d => selD.contains d)) <;>
      cases hGT : (!selTo.isEmpty && !c.tools.any (fun t => selTo.contains t)) <;>
      cases hLv : (c.level == v || selL.contains c.level) <;>
      simp [hGT2, hGD, hGT, hLv]
  unfold countByLevel
  rw [foldl_count _ _ hf, List.countP_filter, ← List.countP_eq_length_filter]
  rw [Nat.zero_add]
  apply List.countP_congr
  intro c _
  cases hA : (term != "" && !jsIncludes (jsToLower c.title) term) <;>
    cases hGT2 : (!selT.isEmpty && !selT.contains c.track) <;>
    cases hGD : (!selD.isEmpty && !c.domains.any (fun d => selD.contains d)) <;>
    cases hGT : (!selTo.isEmpty && !c.tools.any (fun t => selTo.contains t)) <;>
    cases hLv : (c.level == v || selL.contains c.level) <;>
    cases hRF : ratingFails th c.rating <;>
    simp only [matchesListing, passesRatingDuration, listingBasePred, hA, hGT2, hGD,
      hGT, hLv, hRF, List.isEmpty_cons, List.contains_cons, Bool.not_true,
      Bool.not_false, Bool.and_true, Bool.and_false, Bool.true_and, Bool.false_and,
      eq_self_iff_true, if_true, if_false, Bool.false_eq_true, Bool.true_eq_false,
      Bool.or_false, Bool.false_or, Bool.or_true, Bool.true_or]

theorem lsGetItem_set_same : ∀ (s : List (String × String)) (k v : String),
    lsGetItem (lsSetItem s k v) k = some v := by
  intro s k v
  unfold lsSetItem
  by_cases hany : s.any (fun kv => kv.fst == k) = true
  · simp only [hany, if_true]
    induction s with
    | nil => simp at hany
    | cons a t ih =>
      by_cases ha : (a.fst == k) = true
      · simp [lsGetItem, List.find?, ha]
      · have ht : t.any (fun kv => kv.fst == k) = true := by
          simp only [List.any_cons, ha, Bool.false_or] at hany
          exact hany
        simp only [List.map_cons, ha, if_false, lsGetItem] at ih ⊢
        rw [List.find?_cons_of_neg _ (by simpa using ha)]
        exact ih ht
  · have hany2 : (s.any fun kv => kv.fst == k) = false := Bool.eq_false_iff.mpr hany
    simp only [hany2, Bool.false_eq_true, if_false, lsGetItem]
    have hnone : s.find? (fun kv => kv.fst == k) = none := by
      rw [List.find?_eq_none]
      intro kv hkv hk
      exact absurd (List.any_eq_true.mpr ⟨kv, hkv, hk⟩) hany
    rw [List.find?_append, hnone]
    simp [List.find?]

theorem lsGetItem_set_other : ∀ (s : List (String × String)) (k v key : String),
    key ≠ k → lsGetItem (lsSetItem s k v) key = lsGetItem s key := by
  intro s k v key hne
  unfold lsSetItem
  by_cases hany : s.any (fun kv => kv.fst == k) = true
  · simp only [hany, if_true, lsGetItem]
    clear hany
    induction s with
    | nil => simp
    | cons a t ih =>
      by_cases ha : (a.fst == k) = true
      · have ha' : a.fst = k := by simpa using ha
        have h1 : ((k, v).fst == key) = false := by
          simp only [beq_eq_false_iff_ne, ne_eq]
          exact fun h => hne h.symm
        have h2 : (a.fst == key) = false := by
          rw [ha']
          simp only [beq_eq_false_iff_ne, ne_eq]
          exact fun h => hne h.symm
        rw [List.map_cons, if_pos ha, List.find?_cons_of_neg _ (by simpa using h1),
          List.find?_cons_of_neg _ (by simpa using h2)]
        exact ih
      · rw [List.map_cons, if_neg (by simpa using ha)]
        cases hp : (a.fst == key) with
        | true =>
          rw [List.find?_cons_of_pos _ (by simpa using hp),
            List.find?_cons_of_pos _ (by simpa using hp)]
        | false =>
          rw [List.find?_cons_of_neg _ (by simpa using hp),
            List.find?_cons_of_neg _ (by simpa using hp)]
          exact ih
  · have hany2 : (s.any fun kv => kv.fst == k) = false := Bool.eq_false_iff.mpr hany
    simp only [hany2, Bool.false_eq_true, if_false, lsGetItem]
    rw [List.find?_append]
    have h1 : ([(k, v)].find? (fun kv => kv.fst == key)) = none := by
      simp only [List.find?]
      have : ((k, v).fst == key) = false := by
        simp only [beq_eq_false_iff_ne, ne_eq]
        exact fun h => hne h.symm
      simp [this]
    cases hfind : s.find? (fun kv => kv.fst == key) <;> simp [hfind, h1]

/-- C10: the two `getIconForDomain` functions defined independently in
`index.js` and `home.js` are extensionally equal: for every domain string
both return `domainIcons[s % 15]` where `s` is the sum of the string's
UTF-16 code units, and the two `domainIcons` pools are the same 15-element
list; the icon assignment is therefore a pure function of the domain name,
i.e. deterministic on both pages and across page loads. -/
theorem c10_getIconForDomain_equivalent :
    (∀ s : String, getIconForDomain s = getIconForDomainHome s) ∧
    (∀ s : String, getIconForDomain s = domainIcons.getD (charCodeSum s % 15) "") ∧
    domainIcons = domainIconsHome ∧ domainIcons.length = 15 :=
  ⟨fun _ => rfl, fun _ => rfl, rfl, rfl⟩

/-- C5: every operation leaves the in-memory course list unchanged:
`applyFilters` (both pages) filters into a fresh array and sorts only that
array, `updateFilterCounts` (both pages) only rewrites option labels,
`renderFeaturedCourses` sorts a spread copy `[...courses]`, and the course,
category and featured-course renderers only read state.  Each render
function returns the state it leaves behind as its first component, which
is exactly the input state. -/
theorem c5_courses_unchanged (st : HomeState) (stL : ListingState) (page : Nat) :
    (applyFiltersHome st).courses = st.courses ∧
    (updateFilterCountsHome st).courses = st.courses ∧
    (renderCoursesHome st).1 = st ∧
    (renderFeaturedCourses st).1 = st ∧
    (renderCategories st page).1 = st ∧
    (applyFiltersListing stL).courses = stL.courses ∧
    (updateFilterCountsListing stL).courses = stL.courses ∧
    (renderCoursesListing stL).1 = stL := by
  refine ⟨rfl, ?_, ?_, rfl, rfl, rfl, ?_, ?_⟩
  · unfold updateFilterCountsHome
    split <;> rfl
  · unfold renderCoursesHome
    split <;> rfl
  · unfold updateFilterCountsListing
    split <;> rfl
  · unfold renderCoursesListing
    split <;> rfl

/-- C7: pagination is correct on both pages.  Home page: `renderCourses`
shows exactly the first `currentPage * 12` filtered courses (hence
`min(currentPage * 12, N)` of the `N` results), the Load More button is
rendered exactly when more courses remain, clicking it increments
`currentPage` by one, and `applyFilters` resets `currentPage` to 1.
Listing page: `renderCourses` shows exactly the slice from
`(currentPage - 1) * 6` to `currentPage * 6`, the pagination controls are
rendered exactly when `ceil(N / 6) > 1`, and when rendered the Prev button
is disabled exactly on page 1 and the Next button exactly on the last
page; `applyFilters` resets `currentPage` to 1. -/
theorem c7_pagination_correct (st : HomeState) (stL : ListingState) :
    (renderCoursesHome st).2.shown =
        st.filteredCourses.take (st.currentPage * itemsPerPage) ∧
    (renderCoursesHome st).2.shown.length =
        min (st.currentPage * itemsPerPage) st.filteredCourses.length ∧
    (renderCoursesHome st).2.loadMore =
        decide (st.filteredCourses.length > (renderCoursesHome st).2.shown.length) ∧
    loadMoreClick st = { st with currentPage := st.currentPage + 1 } ∧
    (applyFiltersHome st).currentPage = 1 ∧
    (renderCoursesListing stL).2.shown =
        (stL.filteredCourses.drop ((stL.currentPage - 1) * coursesPerPage)).take
          coursesPerPage ∧
    (renderCoursesListing stL).2.pagination =
        (if 1 < (stL.filteredCourses.length + coursesPerPage - 1) / coursesPerPage then
          some (stL.currentPage == 1,
            stL.currentPage ==
              (stL.filteredCourses.length + coursesPerPage - 1) / coursesPerPage)
        else none) ∧
    (applyFiltersListing stL).currentPage = 1 := by
  refine ⟨?_, ?_, ?_, rfl, rfl, ?_, ?_, rfl⟩
  · unfold renderCoursesHome
    split
    · rename_i hmem
      rw [List.isEmpty_iff] at hmem
      simp [hmem]
    · rfl
  · unfold renderCoursesHome
    split
    · rename_i hmem
      rw [List.isEmpty_iff] at hmem
      simp [hmem]
    · simp [List.length_take]
  · unfold renderCoursesHome
    split
    · rename_i hmem
      rw [List.isEmpty_iff] at hmem
      simp [hmem]
    · rfl
  · unfold renderCoursesListing
    split
    · rename_i hmem
      rw [List.isEmpty_iff] at hmem
      simp [hmem]
    · rfl
  · unfold renderCoursesListing renderPagination
    split
    · rename_i hmem
      rw [List.isEmpty_iff] at hmem
      simp only [hmem, List.length_nil]
      norm_num [coursesPerPage]
    · simp only []
      by_cases hle :
          (stL.filteredCourses.length + coursesPerPage - 1) / coursesPerPage ≤ 1
      · rw [if_pos hle, if_neg (by omega)]
      · rw [if_neg hle, if_pos (by omega)]

/-- C8: the only persistent state written is the single localStorage key
`theme`: `toggleDarkMode` stores `'dark'` exactly when the root element
carries the `dark` class after the toggle and `'light'` otherwise, and
leaves every other key untouched; `applySavedTheme` writes nothing and
adds the `dark` class if and only if the stored value is `'dark'`
(removing it for any other or missing value); consequently applying the
saved theme immediately after a toggle reproduces the toggled state.  No
other embedded operation takes or returns a storage component. -/
theorem c8_theme_storage (st : ThemeState) :
    lsGetItem (toggleDarkMode st).storage "theme" =
        some (if (toggleDarkMode st).dark then "dark" else "light") ∧
    (∀ key : String, key ≠ "theme" →
        lsGetItem (toggleDarkMode st).storage key = lsGetItem st.storage key) ∧
    ((applySavedTheme st).dark = true ↔ lsGetItem st.storage "theme" = some "dark") ∧
    (applySavedTheme st).storage = st.storage ∧
    (applySavedTheme (toggleDarkMode st)).dark = (toggleDarkMode st).dark := by
  refine ⟨?_, ?_, ?_, rfl, ?_⟩
  · exact lsGetItem_set_same st.storage "theme" (if !st.dark then "dark" else "light")
  · intro key hk
    exact lsGetItem_set_other st.storage "theme" _ key hk
  · unfold applySavedTheme
    simp
  · unfold applySavedTheme
    have hget := lsGetItem_set_same st.storage "theme"
      (if !st.dark then "dark" else "light")
    cases hd : st.dark with
    | false =>
      simp only [toggleDarkMode, hd] at hget ⊢
      simp at hget
      simp [hget]
    | true =>
      simp only [toggleDarkMode, hd] at hget ⊢
      simp at hget
      simp [hget]

/-- C2: `applyFilters` places a course in the filtered result if and only
if its title contains the (trimmed, lower-cased) search term
case-insensitively or the term is empty; its track equals the selected
track (home page) or is among the selected tracks (listing page) when any
is selected; its domains contain the selected domain (home) or overlap
the selected domain set (listing); likewise for tools; its level matches
the selection; and, on the listing page only, its rating is at least the
parsed rating threshold when that threshold is positive and its weeks
value falls in the selected duration bucket (`short`: `< 4`, `medium`:
`4..8`, `long`: `> 8`) when one is selected. -/
theorem c2_applyFilters_membership (st : HomeState) (stL : ListingState) (c : Course) :
    (c ∈ (applyFiltersHome st).filteredCourses ↔
      c ∈ st.courses ∧
        (jsToLower (jsTrim st.searchInput) = "" ∨
          jsIncludes (jsToLower c.title) (jsToLower (jsTrim st.searchInput)) = true) ∧
        (st.trackSel = "" ∨ c.track = st.trackSel) ∧
        (st.domainSel = "" ∨ st.domainSel ∈ c.domains) ∧
        (st.toolSel = "" ∨ st.toolSel ∈ c.tools) ∧
        (st.levelSel = "" ∨ c.level = st.levelSel)) ∧
    (c ∈ (applyFiltersListing stL).filteredCourses ↔
      c ∈ stL.courses ∧
        (jsToLower (jsTrim stL.searchInput) = "" ∨
          jsIncludes (jsToLower c.title) (jsToLower (jsTrim stL.searchInput)) = true) ∧
        (stL.selectedTracks.filter (fun v => v != "") = [] ∨
          c.track ∈ stL.selectedTracks.filter (fun v => v != "")) ∧
        (stL.selectedDomains.filter (fun v => v != "") = [] ∨
          ∃ d ∈ c.domains, d ∈ stL.selectedDomains.filter (fun v => v != "")) ∧
        (stL.selectedTools.filter (fun v => v != "") = [] ∨
          ∃ t ∈ c.tools, t ∈ stL.selectedTools.filter (fun v => v != "")) ∧
        (stL.selectedLevels.filter (fun v => v != "") = [] ∨
          c.level ∈ stL.selectedLevels.filter (fun v => v != "")) ∧
        (∀ t : ℚ, ratingThresholdOf stL.ratingVal = some t → 0 < t → t ≤ c.rating) ∧
        (stL.durationVal = "short" → c.weeks < 4) ∧
        (stL.durationVal = "medium" → 4 ≤ c.weeks ∧ c.weeks ≤ 8) ∧
        (stL.durationVal = "long" → 8 < c.weeks)) := by
  constructor
  · show c ∈ (_ : List Course).mergeSort _ ↔ _
    rw [List.mem_mergeSort, List.mem_filter, matchesHome_iff]
    simp only [List.elem_iff]
  · show c ∈ (_ : List Course).mergeSort _ ↔ _
    rw [List.mem_mergeSort, List.mem_filter, matchesListing_iff]
    simp only [List.elem_iff, List.any_eq_true]

/-- C3: after `applyFilters` completes (on either page), the filtered
course list is a permutation of the raw filter result sorted according to
the selected sort key: descending rating for `rating`, descending student
count for `students`, ascending weeks for `duration`, and ascending title
order (`localeCompare`) for `title` or any other key. -/
theorem c3_applyFilters_sorted (st : HomeState) (stL : ListingState) (k : String) :
    List.Sorted (fun a b : Course => b.rating ≤ a.rating)
        (applyFiltersHome { st with sortBy := "rating" }).filteredCourses ∧
    List.Sorted (fun a b : Course => b.students ≤ a.students)
        (applyFiltersHome { st with sortBy := "students" }).filteredCourses ∧
    List.Sorted (fun a b : Course => a.weeks ≤ b.weeks)
        (applyFiltersHome { st with sortBy := "duration" }).filteredCourses ∧
    (k ≠ "rating" → k ≠ "students" → k ≠ "duration" →
      List.Sorted (fun a b : Course => localeCompareLe a.title b.title = true)
        (applyFiltersHome { st with sortBy := k }).filteredCourses) ∧
    (applyFiltersHome st).filteredCourses.Perm
        (st.courses.filter (matchesHome (jsToLower (jsTrim st.searchInput)) st.trackSel
          st.domainSel st.toolSel st.levelSel)) ∧
    List.Sorted (fun a b : Course => b.rating ≤ a.rating)
        (applyFiltersListing { stL with sortBy := "rating" }).filteredCourses ∧
    List.Sorted (fun a b : Course => b.students ≤ a.students)
        (applyFiltersListing { stL with sortBy := "students" }).filteredCourses ∧
    List.Sorted (fun a b : Course => a.weeks ≤ b.weeks)
        (applyFiltersListing { stL with sortBy := "duration" }).filteredCourses ∧
    (k ≠ "rating" → k ≠ "students" → k ≠ "duration" →
      List.Sorted (fun a b : Course => localeCompareLe a.title b.title = true)
        (applyFiltersListing { stL with sortBy := k }).filteredCourses) ∧
    (applyFiltersListing stL).filteredCourses.Perm
        (stL.courses.filter (matchesListing (jsToLower (jsTrim stL.searchInput))
          (stL.selectedTracks.filter (fun v => v != ""))
          (stL.selectedDomains.filter (fun v => v != ""))
          (stL.selectedTools.filter (fun v => v != ""))
          (stL.selectedLevels.filter (fun v => v != ""))
          (ratingThresholdOf stL.ratingVal) stL.durationVal)) := by
  have hsorted : ∀ (kk : String) (l : List Course),
      List.Pairwise (fun a b => sortLe kk a b = true) (l.mergeSort (sortLe kk)) :=
    fun kk l => List.sorted_mergeSort (sortLe_trans kk) (sortLe_total kk) l
  have hrating : ∀ l : List Course,
      List.Sorted (fun a b : Course => b.rating ≤ a.rating)
        (l.mergeSort (sortLe "rating")) :=
    fun l => (hsorted "rating" l).imp (fun h => by simpa [sortLe] using h)
  have hstudents : ∀ l : List Course,
      List.Sorted (fun a b : Course => b.students ≤ a.students)
        (l.mergeSort (sortLe "students")) :=
    fun l => (hsorted "students" l).imp (fun h => by simpa [sortLe] using h)
  have hweeks : ∀ l : List Course,
      List.Sorted (fun a b : Course => a.weeks ≤ b.weeks)
        (l.mergeSort (sortLe "duration")) :=
    fun l => (hsorted "duration" l).imp (fun h => by simpa [sortLe] using h)
  have htitle : ∀ (kk : String), kk ≠ "rating" → kk ≠ "students" → kk ≠ "duration" →
      ∀ l : List Course,
      List.Sorted (fun a b : Course => localeCompareLe a.title b.title = true)
        (l.mergeSort (sortLe kk)) := by
    intro kk h1 h2 h3 l
    refine (hsorted kk l).imp (fun h => ?_)
    simpa [sortLe, h1, h2, h3] using h
  exact ⟨hrating _, hstudents _, hweeks _, fun h1 h2 h3 => htitle k h1 h2 h3 _,
    List.mergeSort_perm _ _, hrating _, hstudents _, hweeks _,
    fun h1 h2 h3 => htitle k h1 h2 h3 _, List.mergeSort_perm _ _⟩

/-- C4: `updateFilterCounts` (both pages) is a total function on every
course list — it is defined by structural recursion over the option lists
and course array and rewrites each select's options one-for-one (the
option lists keep their length) — and when the course array is empty it
returns the state unchanged, modifying no option label or disabled
flag. -/
theorem c4_updateFilterCounts_safe (st : HomeState) (stL : ListingState) :
    (st.courses = [] → updateFilterCountsHome st = st) ∧
    (stL.courses = [] → updateFilterCountsListing stL = stL) ∧
    (updateFilterCountsHome st).trackOptions.length = st.trackOptions.length ∧
    (updateFilterCountsHome st).domainOptions.length = st.domainOptions.length ∧
    (updateFilterCountsHome st).toolOptions.length = st.toolOptions.length ∧
    (updateFilterCountsHome st).levelOptions.length = st.levelOptions.length ∧
    (updateFilterCountsListing stL).trackOptions.length = stL.trackOptions.length ∧
    (updateFilterCountsListing stL).domainOptions.length = stL.domainOptions.length ∧
    (updateFilterCountsListing stL).toolOptions.length = stL.toolOptions.length ∧
    (updateFilterCountsListing stL).levelOptions.length = stL.levelOptions.length := by
  refine ⟨?_, ?_, ?_, ?_, ?_, ?_, ?_, ?_, ?_, ?_⟩
  · intro h
    unfold updateFilterCountsHome
    rw [if_pos (by simp [h])]
  · intro h
    unfold updateFilterCountsListing
    rw [if_pos (by simp [h])]
  all_goals
    first
      | (unfold updateFilterCountsHome
         split
         · rfl
         · simp [List.length_map])
      | (unfold updateFilterCountsListing
         split
         · rfl
         · simp [List.length_map])

/-- C1 (amended: stated for a non-empty course list, since
`updateFilterCounts` returns immediately on an empty one): after
`updateFilterCounts` runs, every non-empty option of every facet carries
the label `value (count)` where `count` is exactly the number of courses
that would match `applyFilters` if that option were additionally selected
— the courses passing the current search term and the current selections
of all other facets (and, on the listing page, the rating threshold and
duration bucket) whose corresponding field matches the examined option
(on the listing page, matches it or any already-selected value of the
same facet) — the option is disabled exactly when that count is zero, and
the empty `All ...` option is never disabled. -/
theorem c1_updateFilterCounts_counts (st : HomeState) (stL : ListingState)
    (h1 : st.courses ≠ []) (h2 : stL.courses ≠ []) :
    ((updateFilterCountsHome st).trackOptions = st.trackOptions.map (fun opt =>
      if opt.value = "" then { opt with text := "All Tracks", disabled := false }
      else { opt with
        text := countLabel opt.value
          ((st.courses.filter (matchesHome (jsToLower (jsTrim st.searchInput)) opt.value
            st.domainSel st.toolSel st.levelSel)).length),
        disabled :=
          ((st.courses.filter (matchesHome (jsToLower (jsTrim st.searchInput)) opt.value
            st.domainSel st.toolSel st.levelSel)).length == 0) })) ∧
    ((updateFilterCountsHome st).domainOptions = st.domainOptions.map (fun opt =>
      if opt.value = "" then { opt with text := "All Domains", disabled := false }
      else { opt with
        text := countLabel opt.value
          ((st.courses.filter (matchesHome (jsToLower (jsTrim st.searchInput)) st.trackSel
            opt.value st.toolSel st.levelSel)).length),
        disabled :=
          ((st.courses.filter (matchesHome (jsToLower (jsTrim st.searchInput)) st.trackSel
            opt.value st.toolSel st.levelSel)).length == 0) })) ∧
    ((updateFilterCountsHome st).toolOptions = st.toolOptions.map (fun opt =>
      if opt.value = "" then { opt with text := "All Tools", disabled := false }
      else { opt with
        text := countLabel opt.value
          ((st.courses.filter (matchesHome (jsToLower (jsTrim st.searchInput)) st.trackSel
            st.domainSel opt.value st.levelSel)).length),
        disabled :=
          ((st.courses.filter (matchesHome (jsToLower (jsTrim st.searchInput)) st.trackSel
            st.domainSel opt.value st.levelSel)).length == 0) })) ∧
    ((updateFilterCountsHome st).levelOptions = st.levelOptions.map (fun opt =>
      if opt.value = "" then { opt with text := "All Levels", disabled := false }
      else { opt with
        text := countLabel opt.value
          ((st.courses.filter (matchesHome (jsToLower (jsTrim st.searchInput)) st.trackSel
            st.domainSel st.toolSel opt.value)).length),
        disabled :=
          ((st.courses.filter (matchesHome (jsToLower (jsTrim st.searchInput)) st.trackSel
            st.domainSel st.toolSel opt.value)).length == 0) })) ∧
    ((updateFilterCountsListing stL).trackOptions = stL.trackOptions.map (fun opt =>
      if opt.value = "" then { opt with text := "All Tracks", disabled := false }
      else { opt with
        text := countLabel opt.value
          ((stL.courses.filter (matchesListing (jsToLower (jsTrim stL.searchInput))
            (opt.value :: stL.selectedTracks.filter (fun v => v != ""))
            (stL.selectedDomains.filter (fun v => v != ""))
            (stL.selectedTools.filter (fun v => v != ""))
            (stL.selectedLevels.filter (fun v => v != ""))
            (ratingThresholdOf stL.ratingVal) stL.durationVal)).length),
        disabled :=
          ((stL.courses.filter (matchesListing (jsToLower (jsTrim stL.searchInput))
            (opt.value :: stL.selectedTracks.filter (fun v => v != ""))
            (stL.selectedDomains.filter (fun v => v != ""))
            (stL.selectedTools.filter (fun v => v != ""))
            (stL.selectedLevels.filter (fun v => v != ""))
            (ratingThresholdOf stL.ratingVal) stL.durationVal)).length == 0) })) ∧
    ((updateFilterCountsListing stL).domainOptions = stL.domainOptions.map (fun opt =>
      if opt.value = "" then { opt with text := "All Domains", disabled := false }
      else { opt with
        text := countLabel opt.value
          ((stL.courses.filter (matchesListing (jsToLower (jsTrim stL.searchInput))
            (stL.selectedTracks.filter (fun v => v != ""))
            (opt.value :: stL.selectedDomains.filter (fun v => v != ""))
            (stL.selectedTools.filter (fun v => v != ""))
            (stL.selectedLevels.filter (fun v => v != ""))
            (ratingThresholdOf stL.ratingVal) stL.durationVal)).length),
        disabled :=
          ((stL.courses.filter (matchesListing (jsToLower (jsTrim stL.searchInput))
            (stL.selectedTracks.filter (fun v => v != ""))
            (opt.value :: stL.selectedDomains.filter (fun v => v != ""))
            (stL.selectedTools.filter (fun v => v != ""))
            (stL.selectedLevels.filter (fun v => v != ""))
            (ratingThresholdOf stL.ratingVal) stL.durationVal)).length == 0) })) ∧
    ((updateFilterCountsListing stL).toolOptions = stL.toolOptions.map (fun opt =>
      if opt.value = "" then { opt with text := "All Tools", disabled := false }
      else { opt with
        text := countLabel opt.value
          ((stL.courses.filter (matchesListing (jsToLower (jsTrim stL.searchInput))
            (stL.selectedTracks.filter (fun v => v != ""))
            (stL.selectedDomains.filter (fun v => v != ""))
            (opt.value :: stL.selectedTools.filter (fun v => v != ""))
            (stL.selectedLevels.filter (fun v => v != ""))
            (ratingThresholdOf stL.ratingVal) stL.durationVal)).length),
        disabled :=
          ((stL.courses.filter (matchesListing (jsToLower (jsTrim stL.searchInput))
            (stL.selectedTracks.filter (fun v => v != ""))
            (stL.selectedDomains.filter (fun v => v != ""))
            (opt.value :: stL.selectedTools.filter (fun v => v != ""))
            (stL.selectedLevels.filter (fun v => v != ""))
            (ratingThresholdOf stL.ratingVal) stL.durationVal)).length == 0) })) ∧
    ((updateFilterCountsListing stL).levelOptions = stL.levelOptions.map (fun opt =>
      if opt.value = "" then { opt with text := "All Levels", disabled := false }
      else { opt with
        text := countLabel opt.value
          ((stL.courses.filter (matchesListing (jsToLower (jsTrim stL.searchInput))
            (stL.selectedTracks.filter (fun v => v != ""))
            (stL.selectedDomains.filter (fun v => v != ""))
            (stL.selectedTools.filter (fun v => v != ""))
            (opt.value :: stL.selectedLevels.filter (fun v => v != ""))
            (ratingThresholdOf stL.ratingVal) stL.durationVal)).length),
        disabled :=
          ((stL.courses.filter (matchesListing (jsToLower (jsTrim stL.searchInput))
            (stL.selectedTracks.filter (fun v => v != ""))
            (stL.selectedDomains.filter (fun v => v != ""))
            (stL.selectedTools.filter (fun v => v != ""))
            (opt.value :: stL.selectedLevels.filter (fun v => v != ""))
            (ratingThresholdOf stL.ratingVal) stL.durationVal)).length == 0) })) := by
  have he : ¬ (st.courses.isEmpty = true) := fun ht => h1 (List.isEmpty_iff.mp ht)
  have heL : ¬ (stL.courses.isEmpty = true) := fun ht => h2 (List.isEmpty_iff.mp ht)
  refine ⟨?_, ?_, ?_, ?_, ?_, ?_, ?_, ?_⟩ <;>
    first
      | (unfold updateFilterCountsHome
         rw [if_neg he]
         refine List.map_congr_left ?_
         intro opt _
         by_cases hv : opt.value = ""
         · simp [hv]
         · rw [if_neg (by simpa using hv), if_neg hv]
           first
             | rw [countFor_spec st.courses _ _ _ _ _ hv]
             | rw [countDomainHome_spec st.courses _ _ _ _ _ hv]
             | rw [countToolHome_spec st.courses _ _ _ _ _ hv]
             | rw [countLevelHome_spec st.courses _ _ _ _ _ hv])
      | (unfold updateFilterCountsListing
         rw [if_neg heL]
         refine List.map_congr_left ?_
         intro opt _
         by_cases hv : opt.value = ""
         · simp [hv]
         · rw [if_neg (by simpa using hv), if_neg hv]
           first
             | rw [countByTrack_spec]
             | rw [countByDomain_spec]
             | rw [countByTool_spec]
             | rw [countByLevel_spec])

theorem mem_jsSetDedup_aux : ∀ (xs acc : List String) (y : String),
    (y ∈ xs.foldl (fun acc x => if acc.contains x then acc else acc ++ [x]) acc) ↔
      (y ∈ acc ∨ y ∈ xs) := by
  intro xs
  induction xs with
  | nil => intro acc y; simp
  | cons x t ih =>
    intro acc y
    simp only [List.foldl_cons]
    by_cases h : acc.contains x = true
    · rw [if_pos h, ih]
      have hx : x ∈ acc := List.elem_iff.mp h
      constructor
      · rintro (ha | ht)
        · exact Or.inl ha
        · exact Or.inr (List.mem_cons_of_mem _ ht)
      · rintro (ha | hxt)
        · exact Or.inl ha
        · rcases List.mem_cons.mp hxt with rfl | ht
          · exact Or.inl hx
          · exact Or.inr ht
    · rw [if_neg h, ih]
      simp only [List.mem_append, List.mem_singleton, List.mem_cons]
      tauto

theorem mem_jsSetDedup (xs : List String) (y : String) :
    y ∈ jsSetDedup xs ↔ y ∈ xs := by
  unfold jsSetDedup
  rw [mem_jsSetDedup_aux]
  simp

theorem domainFallback_nonempty (courses : List Course) (param m : String)
    (hfind : (jsSetDedup (courses.flatMap (fun c => c.domains))).find?
      (fun d => jsIncludes (jsToLower d) (jsToLower param)) = some m) :
    (courses.filter (fun c => c.domains.contains m)).isEmpty = false := by
  have hm : m ∈ jsSetDedup (courses.flatMap (fun c => c.domains)) :=
    List.mem_of_find?_eq_some hfind
  rw [mem_jsSetDedup, List.mem_flatMap] at hm
  obtain ⟨c, hc, hmc⟩ := hm
  have hmem : c ∈ courses.filter (fun c => c.domains.contains m) :=
    List.mem_filter.mpr ⟨hc, List.elem_iff.mpr hmc⟩
  cases hl : courses.filter (fun c => c.domains.contains m) with
  | nil => rw [hl] at hmem; cases hmem
  | cons a t => simp

theorem trackFallback_nonempty (courses : List Course) (param m : String)
    (hfind : (jsSetDedup (courses.map (fun c => c.track))).find?
      (fun t => jsIncludes (jsToLower t) (jsToLower param)) = some m) :
    (courses.filter (fun c => c.track == m)).isEmpty = false := by
  have hm : m ∈ jsSetDedup (courses.map (fun c => c.track)) :=
    List.mem_of_find?_eq_some hfind
  rw [mem_jsSetDedup, List.mem_map] at hm
  obtain ⟨c, hc, hmc⟩ := hm
  have hmem : c ∈ courses.filter (fun c => c.track == m) :=
    List.mem_filter.mpr ⟨hc, by simp [hmc]⟩
  cases hl : courses.filter (fun c => c.track == m) with
  | nil => rw [hl] at hmem; cases hmem
  | cons a t => simp

theorem domainPageInit_of_exact (courses : List Course) (param : String)
    (h : (courses.filter (fun c => c.domains.contains param)).isEmpty = false) :
    (domainPageInit courses param).messageShown = false ∧
    (domainPageInit courses param).heading = param ∧
    (domainPageInit courses param).courseCards.Perm
      (courses.filter (fun c => c.domains.contains param)) := by
  simp only [domainPageInit, h, Bool.false_eq_true, if_false]
  refine ⟨?_, ?_, ?_⟩ <;> first | trivial | exact List.mergeSort_perm _ _

theorem domainPageInit_of_fallback (courses : List Course) (param m : String)
    (hempty : (courses.filter (fun c => c.domains.contains param)).isEmpty = true)
    (hfind : (jsSetDedup (courses.flatMap (fun c => c.domains))).find?
      (fun d => jsIncludes (jsToLower d) (jsToLower param)) = some m) :
    (domainPageInit courses param).messageShown = false ∧
    (domainPageInit courses param).heading = m ∧
    (domainPageInit courses param).courseCards.Perm
      (courses.filter (fun c => c.domains.contains m)) := by
  have hne := domainFallback_nonempty courses param m hfind
  simp only [domainPageInit, hempty, if_true, hfind, hne, Bool.false_eq_true, if_false]
  refine ⟨?_, ?_, ?_⟩ <;> first | trivial | exact List.mergeSort_perm _ _

theorem domainPageInit_of_none (courses : List Course) (param : String)
    (hempty : (courses.filter (fun c => c.domains.contains param)).isEmpty = true)
    (hfind : (jsSetDedup (courses.flatMap (fun c => c.domains))).find?
      (fun d => jsIncludes (jsToLower d) (jsToLower param)) = none) :
    (domainPageInit courses param).messageShown = true ∧
    (domainPageInit courses param).heading = param ∧
    (domainPageInit courses param).description = "No courses found for this domain." ∧
    (domainPageInit courses param).groupCards = [] ∧
    (domainPageInit courses param).courseCards = [] := by
  simp only [domainPageInit, hempty, if_true, hfind]
  refine ⟨?_, ?_, ?_, ?_, ?_⟩ <;> trivial

theorem trackPageInit_of_exact (courses : List Course) (param : String)
    (h : (courses.filter (fun c => c.track == param)).isEmpty = false) :
    (trackPageInit courses param).messageShown = false ∧
    (trackPageInit courses param).heading = param ∧
    (trackPageInit courses param).courseCards.Perm
      (courses.filter (fun c => c.track == param)) := by
  simp only [trackPageInit, h, Bool.false_eq_true, if_false]
  refine ⟨?_, ?_, ?_⟩ <;> first | trivial | exact List.mergeSort_perm _ _

theorem trackPageInit_of_fallback (courses : List Course) (param m : String)
    (hempty : (courses.filter (fun c => c.track == param)).isEmpty = true)
    (hfind : (jsSetDedup (courses.map (fun c => c.track))).find?
      (fun t => jsIncludes (jsToLower t) (jsToLower param)) = some m) :
    (trackPageInit courses param).messageShown = false ∧
    (trackPageInit courses param).heading = m ∧
    (trackPageInit courses param).courseCards.Perm
      (courses.filter (fun c => c.track == m)) := by
  have hne := trackFallback_nonempty courses param m hfind
  simp only [trackPageInit, hempty, if_true, hfind, hne, Bool.false_eq_true, if_false]
  refine ⟨?_, ?_, ?_⟩ <;> first | trivial | exact List.mergeSort_perm _ _

theorem trackPageInit_of_none (courses : List Course) (param : String)
    (hempty : (courses.filter (fun c => c.track == param)).isEmpty = true)
    (hfind : (jsSetDedup (courses.map (fun c => c.track))).find?
      (fun t => jsIncludes (jsToLower t) (jsToLower param)) = none) :
    (trackPageInit courses param).messageShown = true ∧
    (trackPageInit courses param).heading = param ∧
    (trackPageInit courses param).description = "No courses found for this track." ∧
    (trackPageInit courses param).groupCards = [] ∧
    (trackPageInit courses param).courseCards = [] := by
  simp only [trackPageInit, hempty, if_true, hfind]
  refine ⟨?_, ?_, ?_, ?_, ?_⟩ <;> trivial


/-- C6: on the domain (resp. track) browsing page, for every non-empty
value of the `domain` (resp. `track`) query parameter, the page first
selects the courses whose `domains` array contains (resp. whose `track`
equals) the parameter exactly; if that yields no courses it retries with
the first known domain (resp. track) name containing the parameter
case-insensitively and selects that name's courses; and the
`No courses found for this domain.` (resp. `... track.`) message is
displayed if and only if both attempts yield no courses, in which case no
tool/domain or course cards are rendered. -/
theorem c6_browse_page_fallback (courses : List Course) (param : String)
    (_hp : param ≠ "") :
    ((courses.filter (fun c => c.domains.contains param)) ≠ [] →
      (domainPageInit courses param).messageShown = false ∧
      (domainPageInit courses param).heading = param ∧
      (domainPageInit courses param).courseCards.Perm
        (courses.filter (fun c => c.domains.contains param))) ∧
    ((courses.filter (fun c => c.domains.contains param)) = [] →
      ∀ m, (jsSetDedup (courses.flatMap (fun c => c.domains))).find?
          (fun d => jsIncludes (jsToLower d) (jsToLower param)) = some m →
        (domainPageInit courses param).messageShown = false ∧
        (domainPageInit courses param).heading = m ∧
        (domainPageInit courses param).courseCards.Perm
          (courses.filter (fun c => c.domains.contains m))) ∧
    ((domainPageInit courses param).messageShown = true ↔
      (courses.filter (fun c => c.domains.contains param)) = [] ∧
      (jsSetDedup (courses.flatMap (fun c => c.domains))).find?
        (fun d => jsIncludes (jsToLower d) (jsToLower param)) = none) ∧
    ((domainPageInit courses param).messageShown = true →
      (domainPageInit courses param).description = "No courses found for this domain." ∧
      (domainPageInit courses param).groupCards = [] ∧
      (domainPageInit courses param).courseCards = []) ∧
    ((courses.filter (fun c => c.track == param)) ≠ [] →
      (trackPageInit courses param).messageShown = false ∧
      (trackPageInit courses param).heading = param ∧
      (trackPageInit courses param).courseCards.Perm
        (courses.filter (fun c => c.track == param))) ∧
    ((courses.filter (fun c => c.track == param)) = [] →
      ∀ m, (jsSetDedup (courses.map (fun c => c.track))).find?
          (fun t => jsIncludes (jsToLower t) (jsToLower param)) = some m →
        (trackPageInit courses param).messageShown = false ∧
        (trackPageInit courses param).heading = m ∧
        (trackPageInit courses param).courseCards.Perm
          (courses.filter (fun c => c.track == m))) ∧
    ((trackPageInit courses param).messageShown = true ↔
      (courses.filter (fun c => c.track == param)) = [] ∧
      (jsSetDedup (courses.map (fun c => c.track))).find?
        (fun t => jsIncludes (jsToLower t) (jsToLower param)) = none) ∧
    ((trackPageInit courses param).messageShown = true →
      (trackPageInit courses param).description = "No courses found for this track." ∧
      (trackPageInit courses param).groupCards = [] ∧
      (trackPageInit courses param).courseCards = []) := by
  have hDiff : ∀ l : List Course, l ≠ [] → l.isEmpty = false :=
    fun l hl => Bool.eq_false_iff.mpr (fun ht => hl (List.isEmpty_iff.mp ht))
  have hDe : ∀ l : List Course, l = [] → l.isEmpty = true :=
    fun l hl => by simp [hl]
  refine ⟨?_, ?_, ?_, ?_, ?_, ?_, ?_, ?_⟩
  · intro h
    exact domainPageInit_of_exact courses param (hDiff _ h)
  · intro h m hm
    exact domainPageInit_of_fallback courses param m (hDe _ h) hm
  · constructor
    · intro hmsg
      by_cases hempty : (courses.filter (fun c => c.domains.contains param)).isEmpty = true
      · cases hfind : (jsSetDedup (courses.flatMap (fun c => c.domains))).find?
            (fun d => jsIncludes (jsToLower d) (jsToLower param)) with
        | some m =>
          have := (domainPageInit_of_fallback courses param m hempty hfind).1
          rw [hmsg] at this
          cases this
        | none => exact ⟨List.isEmpty_iff.mp hempty, rfl⟩
      · have hne : (courses.filter (fun c => c.domains.contains param)).isEmpty = false :=
          Bool.eq_false_iff.mpr hempty
        have := (domainPageInit_of_exact courses param hne).1
        rw [hmsg] at this
        cases this
    · rintro ⟨h1, h2⟩
      exact (domainPageInit_of_none courses param (hDe _ h1) h2).1
  · intro hmsg
    by_cases hempty : (courses.filter (fun c => c.domains.contains param)).isEmpty = true
    · cases hfind : (jsSetDedup (courses.flatMap (fun c => c.domains))).find?
          (fun d => jsIncludes (jsToLower d) (jsToLower param)) with
      | some m =>
        have := (domainPageInit_of_fallback courses param m hempty hfind).1
        rw [hmsg] at this
        cases this
      | none =>
        obtain ⟨_, _, hd, hg, hc⟩ := domainPageInit_of_none courses param hempty hfind
        exact ⟨hd, hg, hc⟩
    · have hne : (courses.filter (fun c => c.domains.contains param)).isEmpty = false :=
        Bool.eq_false_iff.mpr hempty
      have := (domainPageInit_of_exact courses param hne).1
      rw [hmsg] at this
      cases this
  · intro h
    exact trackPageInit_of_exact courses param (hDiff _ h)
  · intro h m hm
    exact trackPageInit_of_fallback courses param m (hDe _ h) hm
  · constructor
    · intro hmsg
      by_cases hempty : (courses.filter (fun c => c.track == param)).isEmpty = true
      · cases hfind : (jsSetDedup (courses.map (fun c => c.track))).find?
            (fun t => jsIncludes (jsToLower t) (jsToLower param)) with
        | some m =>
          have := (trackPageInit_of_fallback courses param m hempty hfind).1
          rw [hmsg] at this
          cases this
        | none => exact ⟨List.isEmpty_iff.mp hempty, rfl⟩
      · have hne : (courses.filter (fun c => c.track == param)).isEmpty = false :=
          Bool.eq_false_iff.mpr hempty
        have := (trackPageInit_of_exact courses param hne).1
        rw [hmsg] at this
        cases this
    · rintro ⟨h1, h2⟩
      exact (trackPageInit_of_none courses param (hDe _ h1) h2).1
  · intro hmsg
    by_cases hempty : (courses.filter (fun c => c.track == param)).isEmpty = true
    · cases hfind : (jsSetDedup (courses.map (fun c => c.track))).find?
          (fun t => jsIncludes (jsToLower t) (jsToLower param)) with
      | some m =>
        have := (trackPageInit_of_fallback courses param m hempty hfind).1
        rw [hmsg] at this
        cases this
      | none =>
        obtain ⟨_, _, hd, hg, hc⟩ := trackPageInit_of_none courses param hempty hfind
        exact ⟨hd, hg, hc⟩
    · have hne : (courses.filter (fun c => c.track == param)).isEmpty = false :=
        Bool.eq_false_iff.mpr hempty
      have := (trackPageInit_of_exact courses param hne).1
      rw [hmsg] at this
      cases this

theorem ite_bne {α : Type} (x : String) (A B : α) :
    (if x != "" then A else B) = if x ≠ "" then A else B := by
  by_cases h : x = "" <;> simp [h]

theorem ite_rating_chip {α : Type} (rv : String) (hr : rv ≠ "") (A B : α) :
    (if rv != "" && rv != "0" then A else B) = if rv ≠ "0" then A else B := by
  by_cases h0 : rv = "0" <;> simp [hr, h0]

theorem ite_duration_chip {α : Type} (dv : String) (hd : dv ≠ "") (A B : α) :
    (if dv != "" && dv != "all" then A else B) = if dv ≠ "all" then A else B := by
  by_cases h0 : dv = "all" <;> simp [hd, h0]

/-- C9: `updateActiveFilters` renders exactly one chip per active
selection — the non-empty trimmed search term and each selected track,
domain, tool and level value, plus, on the listing page, a rating chip
when the rating value is not `'0'` and a duration chip when the duration
category is not `'all'` (the listing statements assume the rating and
duration selects hold a non-empty value, as a select always does) — a
Clear-all control is rendered if and only if more than one chip is
present, and clicking a chip updates only that one filter control (all
other controls keep their values) before reapplying the filters. -/
theorem c9_active_filter_chips (st : HomeState) (stL : ListingState)
    (hr : stL.ratingVal ≠ "") (hd : stL.durationVal ≠ "") :
    ((updateActiveFiltersHome st).1 =
      (if jsTrim st.searchInput ≠ "" then
        [⟨jsTrim st.searchInput, "search", jsTrim st.searchInput⟩] else []) ++
      (if st.trackSel ≠ "" then [⟨st.trackSel, "track", st.trackSel⟩] else []) ++
      (if st.domainSel ≠ "" then [⟨st.domainSel, "domain", st.domainSel⟩] else []) ++
      (if st.toolSel ≠ "" then [⟨st.toolSel, "tool", st.toolSel⟩] else []) ++
      (if st.levelSel ≠ "" then [⟨st.levelSel, "level", st.levelSel⟩] else [])) ∧
    ((updateActiveFiltersHome st).2 = true ↔ (updateActiveFiltersHome st).1.length > 1) ∧
    (∀ v, removeFilterHome "search" v st = applyFiltersHome { st with searchInput := "" }) ∧
    (∀ v, removeFilterHome "track" v st = applyFiltersHome { st with trackSel := "" }) ∧
    (∀ v, removeFilterHome "domain" v st = applyFiltersHome { st with domainSel := "" }) ∧
    (∀ v, removeFilterHome "tool" v st = applyFiltersHome { st with toolSel := "" }) ∧
    (∀ v, removeFilterHome "level" v st = applyFiltersHome { st with levelSel := "" }) ∧
    ((updateActiveFiltersListing stL).1 =
      (if jsTrim stL.searchInput ≠ "" then
        [⟨jsTrim stL.searchInput, "search", jsTrim stL.searchInput⟩] else []) ++
      (stL.selectedTracks.filter (fun v => v != "")).map (fun t => ⟨t, "track", t⟩) ++
      (stL.selectedDomains.filter (fun v => v != "")).map (fun d => ⟨d, "domain", d⟩) ++
      (stL.selectedTools.filter (fun v => v != "")).map (fun t => ⟨t, "tool", t⟩) ++
      (stL.selectedLevels.filter (fun v => v != "")).map (fun l => ⟨l, "level", l⟩) ++
      (if stL.ratingVal ≠ "0" then
        [⟨"Rating ≥ " ++ stL.ratingVal, "rating", stL.ratingVal⟩] else []) ++
      (if stL.durationVal ≠ "all" then
        [⟨durationChipLabel stL.durationVal, "duration", stL.durationVal⟩] else [])) ∧
    ((updateActiveFiltersListing stL).2 = true ↔
      (updateActiveFiltersListing stL).1.length > 1) ∧
    (∀ v, removeFilterListing "search" v stL =
      applyFiltersListing { stL with searchInput := "" }) ∧
    (∀ v, removeFilterListing "track" v stL = applyFiltersListing
      { stL with selectedTracks := stL.selectedTracks.filter (fun x => x != v) }) ∧
    (∀ v, removeFilterListing "domain" v stL = applyFiltersListing
      { stL with selectedDomains := stL.selectedDomains.filter (fun x => x != v) }) ∧
    (∀ v, removeFilterListing "tool" v stL = applyFiltersListing
      { stL with selectedTools := stL.selectedTools.filter (fun x => x != v) }) ∧
    (∀ v, removeFilterListing "level" v stL = applyFiltersListing
      { stL with selectedLevels := stL.selectedLevels.filter (fun x => x != v) }) ∧
    (∀ v, removeFilterListing "rating" v stL =
      applyFiltersListing { stL with ratingVal := "0" }) ∧
    (∀ v, removeFilterListing "duration" v stL =
      applyFiltersListing { stL with durationVal := "all" }) := by
  refine ⟨?_, ?_, fun _ => rfl, fun _ => rfl, fun _ => rfl, fun _ => rfl, fun _ => rfl,
    ?_, ?_, fun _ => rfl, fun _ => rfl, fun _ => rfl, fun _ => rfl, fun _ => rfl,
    fun _ => rfl, fun _ => rfl⟩
  · simp only [updateActiveFiltersHome, ite_bne]
  · unfold updateActiveFiltersHome
    simp
  · simp only [updateActiveFiltersListing, ite_bne,
      ite_rating_chip stL.ratingVal hr, ite_duration_chip stL.durationVal hd]
  · unfold updateActiveFiltersListing
    simp

/-- A concrete course record used to instantiate the theorems. -/
def sampleCourse : Course :=
  { title := "Quantum AI", track := "AI", domains := ["Physics"],
    tools := ["Python"], level := "Beginner", rating := 9 / 2, students := 1000,
    weeks := 6 }

/-- A concrete home-page state used to instantiate the theorems. -/
def sampleHomeState : HomeState :=
  { courses := [sampleCourse], searchInput := "", trackSel := "", domainSel := "",
    toolSel := "", levelSel := "", sortBy := "title",
    trackOptions := [{ value := "", text := "All Tracks", disabled := false },
                     { value := "AI", text := "AI", disabled := false }],
    domainOptions := [{ value := "", text := "All Domains", disabled := false },
                      { value := "Physics", text := "Physics", disabled := false }],
    toolOptions := [{ value := "", text := "All Tools", disabled := false },
                    { value := "Python", text := "Python", disabled := false }],
    levelOptions := [{ value := "", text := "All Levels", disabled := false },
                     { value := "Beginner", text := "Beginner", disabled := false }],
    filteredCourses := [], currentPage := 1 }

/-- A concrete listing-page state used to instantiate the theorems. -/
def sampleListingState : ListingState :=
  { courses := [sampleCourse], searchInput := "", selectedTracks := [],
    selectedDomains := [], selectedTools := [], selectedLevels := [],
    ratingVal := "0", durationVal := "all", sortBy := "title",
    trackOptions := [{ value := "", text := "All Tracks", disabled := false },
                     { value := "AI", text := "AI", disabled := false }],
    domainOptions := [{ value := "", text := "All Domains", disabled := false }],
    toolOptions := [{ value := "", text := "All Tools", disabled := false }],
    levelOptions := [{ value := "", text := "All Levels", disabled := false }],
    filteredCourses := [], currentPage := 1 }

/-- A home-page state with an empty course array and a non-empty,
non-disabled track option, on which the filter-count claim fails as
originally stated. -/
def emptyCoursesHomeState : HomeState :=
  { courses := [], searchInput := "", trackSel := "", domainSel := "",
    toolSel := "", levelSel := "", sortBy := "title",
    trackOptions := [{ value := "X", text := "X", disabled := false }],
    domainOptions := [], toolOptions := [], levelOptions := [],
    filteredCourses := [], currentPage := 1 }

/-- A listing-page state with an empty course array. -/
def emptyCoursesListingState : ListingState :=
  { courses := [], searchInput := "", selectedTracks := [], selectedDomains := [],
    selectedTools := [], selectedLevels := [], ratingVal := "0",
    durationVal := "all", sortBy := "title", trackOptions := [],
    domainOptions := [], toolOptions := [], levelOptions := [],
    filteredCourses := [], currentPage := 1 }

/-- Counterexample for the original wording of C1: with an empty course
list, `updateFilterCounts` leaves the non-empty option `X` with its old
label (no count is appended) and with `disabled = false`, even though the
number of courses that would match with `X` selected is zero — so the
option is not disabled although its count is zero. -/
theorem c1_counterexample_empty_courses :
    emptyCoursesHomeState.courses = [] ∧
    (updateFilterCountsHome emptyCoursesHomeState).trackOptions =
      [{ value := "X", text := "X", disabled := false }] ∧
    (emptyCoursesHomeState.courses.filter
      (matchesHome (jsToLower (jsTrim emptyCoursesHomeState.searchInput)) "X"
        emptyCoursesHomeState.domainSel emptyCoursesHomeState.toolSel
        emptyCoursesHomeState.levelSel)).length = 0 := by
  refine ⟨rfl, ?_, rfl⟩
  rfl

/-- Witness for C1 at a concrete state: the hypothesis (non-empty course
lists) holds and the amended claim computes the correct count label. -/
theorem c1_updateFilterCounts_counts_witness :
    (sampleHomeState.courses ≠ [] ∧ sampleListingState.courses ≠ []) ∧
    (updateFilterCountsHome sampleHomeState).trackOptions =
      [{ value := "", text := "All Tracks", disabled := false },
       { value := "AI", text := "AI (1)", disabled := false }] := by
  refine ⟨⟨by decide, by decide⟩, ?_⟩
  rw [(c1_updateFilterCounts_counts sampleHomeState sampleListingState (by decide)
    (by decide)).1]
  rfl

/-- Witness for C3 at a concrete state and the sort key `foo` (not one of
`rating`, `students`, `duration`): the result is title-sorted. -/
theorem c3_applyFilters_sorted_witness :
    List.Sorted (fun a b : Course => localeCompareLe a.title b.title = true)
      (applyFiltersHome { sampleHomeState with sortBy := "foo" }).filteredCourses :=
  (c3_applyFilters_sorted sampleHomeState sampleListingState "foo").2.2.2.1
    (by decide) (by decide) (by decide)

/-- Witness for C4 at concrete states with empty course arrays: both
`updateFilterCounts` functions return the state unchanged. -/
theorem c4_updateFilterCounts_safe_witness :
    updateFilterCountsHome emptyCoursesHomeState = emptyCoursesHomeState ∧
    updateFilterCountsListing emptyCoursesListingState = emptyCoursesListingState :=
  ⟨(c4_updateFilterCounts_safe emptyCoursesHomeState emptyCoursesListingState).1 rfl,
   (c4_updateFilterCounts_safe emptyCoursesHomeState emptyCoursesListingState).2.1 rfl⟩

/-- Witness for C6 at a concrete course list and the parameter `Physics`
(an exact domain match): the page renders without the no-courses
message. -/
theorem c6_browse_page_fallback_witness :
    (domainPageInit [sampleCourse] "Physics").messageShown = false ∧
    (domainPageInit [sampleCourse] "Physics").heading = "Physics" ∧
    (domainPageInit [sampleCourse] "Physics").courseCards.Perm
      ([sampleCourse].filter (fun c => c.domains.contains "Physics")) :=
  (c6_browse_page_fallback [sampleCourse] "Physics" (by decide)).1 (by decide)

/-- Witness for C8 at a concrete theme state: toggling does not touch a
key other than `theme`. -/
theorem c8_theme_storage_witness :
    lsGetItem (toggleDarkMode { dark := false, storage := [("lang", "en")] }).storage
        "lang" =
      lsGetItem ({ dark := false, storage := [("lang", "en")] } : ThemeState).storage
        "lang" :=
  (c8_theme_storage { dark := false, storage := [("lang", "en")] }).2.1 "lang" (by decide)

/-- Witness for C9 at concrete states (the rating and duration selects
hold the non-empty values `0` and `all`): removing the search chip clears
only the search input and reapplies the filters. -/
theorem c9_active_filter_chips_witness :
    removeFilterHome "search" "x" sampleHomeState =
      applyFiltersHome { sampleHomeState with searchInput := "" } :=
  (c9_active_filter_chips sampleHomeState sampleListingState (by decide)
    (by decide)).2.2.1 "x"

end Catalog
